import Mathlib

set_option maxRecDepth 16384

/-!
Verification of the SX126x SPI-buffer command codec.

The development shallowly embeds src/commands.rs and src/registers.rs:
bytes are Nat values (Rust integer casts appear as explicit `% 256` /
`% 65536` truncations, shifts as `>>>`/`<<<`, masks as `&&&`/`|||`),
signed i8 results are Int, fixed-size byte arrays are lists (the four
const-generic commands carry their array-length invariants as fields),
and the unsafe discriminant transmutes used by the enum decoders are
modelled as partial maps into Option, so that their totality on the
masked domain is a provable statement rather than an assumption.
-/

namespace SX126x

/-- Rust cast `as u8` applied to an unsigned integer. -/
def u8 (n : Nat) : Nat := n % 256

/-- Rust cast `as i8` applied to a byte: two-complement reinterpretation. -/
def i8 (n : Nat) : Int := if n % 256 < 128 then ((n % 256 : Nat) : Int) else ((n % 256 : Nat) : Int) - 256

/-- Models `SpiDescriptor`.  The two raw buffer pointers are modelled by the
byte contents they alias at the moment the descriptor is taken. -/
structure SpiDescriptor where
  tx_buf : List Nat
  rx_buf : List Nat
  transfer_length : Nat
  deriving Repr, DecidableEq

/-! ## Bitfield types (bitfield_struct patterns from the source)

Each bitfield is its raw integer, exactly as the `#[bitfield(u8)]` /
`#[bitfield(u16)]` macro represents it; `with_x` setters clear the span with
the complement mask and or in the shifted value, getters shift and mask. -/

/-- SleepConfig bitfield: u8, Msb order, warm_start at bit 2. -/
structure SleepConfig where
  bits : Nat
  deriving Repr, DecidableEq

def SleepConfig.new : SleepConfig := ⟨0⟩

def SleepConfig.with_warm_start (c : SleepConfig) (value : Bool) : SleepConfig :=
  ⟨(c.bits &&& 0xFB) ||| (value.toNat <<< 2)⟩

def SleepConfig.warm_start (c : SleepConfig) : Bool :=
  ((c.bits >>> 2) &&& 1) == 1

def SleepConfig.into_bits (c : SleepConfig) : Nat := c.bits

def SleepConfig.from_bits (v : Nat) : SleepConfig := ⟨v⟩

/-- CalibrationSetting bitfield: u8, Lsb order, seven flags at bits 0..6. -/
structure CalibrationSetting where
  bits : Nat
  deriving Repr, DecidableEq

def CalibrationSetting.new : CalibrationSetting := ⟨0⟩

def CalibrationSetting.with_rc64k (c : CalibrationSetting) (value : Bool) : CalibrationSetting :=
  ⟨(c.bits &&& 0xFE) ||| (value.toNat <<< 0)⟩

def CalibrationSetting.with_rc13m (c : CalibrationSetting) (value : Bool) : CalibrationSetting :=
  ⟨(c.bits &&& 0xFD) ||| (value.toNat <<< 1)⟩

def CalibrationSetting.with_pll (c : CalibrationSetting) (value : Bool) : CalibrationSetting :=
  ⟨(c.bits &&& 0xFB) ||| (value.toNat <<< 2)⟩

def CalibrationSetting.with_adc_pulse (c : CalibrationSetting) (value : Bool) : CalibrationSetting :=
  ⟨(c.bits &&& 0xF7) ||| (value.toNat <<< 3)⟩

def CalibrationSetting.with_adc_bulk_n (c : CalibrationSetting) (value : Bool) : CalibrationSetting :=
  ⟨(c.bits &&& 0xEF) ||| (value.toNat <<< 4)⟩

def CalibrationSetting.with_adc_bulk_p (c : CalibrationSetting) (value : Bool) : CalibrationSetting :=
  ⟨(c.bits &&& 0xDF) ||| (value.toNat <<< 5)⟩

def CalibrationSetting.with_image (c : CalibrationSetting) (value : Bool) : CalibrationSetting :=
  ⟨(c.bits &&& 0xBF) ||| (value.toNat <<< 6)⟩

def CalibrationSetting.rc64k (c : CalibrationSetting) : Bool := ((c.bits >>> 0) &&& 1) == 1

def CalibrationSetting.rc13m (c : CalibrationSetting) : Bool := ((c.bits >>> 1) &&& 1) == 1

def CalibrationSetting.pll (c : CalibrationSetting) : Bool := ((c.bits >>> 2) &&& 1) == 1

def CalibrationSetting.adc_pulse (c : CalibrationSetting) : Bool := ((c.bits >>> 3) &&& 1) == 1

def CalibrationSetting.adc_bulk_n (c : CalibrationSetting) : Bool := ((c.bits >>> 4) &&& 1) == 1

def CalibrationSetting.adc_bulk_p (c : CalibrationSetting) : Bool := ((c.bits >>> 5) &&& 1) == 1

def CalibrationSetting.image (c : CalibrationSetting) : Bool := ((c.bits >>> 6) &&& 1) == 1

def CalibrationSetting.into_bits (c : CalibrationSetting) : Nat := c.bits

def CalibrationSetting.from_bits (v : Nat) : CalibrationSetting := ⟨v⟩

/-- Irq bitfield: u16, Lsb order, ten flags at bits 0..9 and lr_fhss_hop at
bit 14; bits 10..13 and 15 are reserved. -/
structure Irq where
  bits : Nat
  deriving Repr, DecidableEq

def Irq.new : Irq := ⟨0⟩

def Irq.with_tx_done (c : Irq) (value : Bool) : Irq :=
  ⟨(c.bits &&& 0xFFFE) ||| (value.toNat <<< 0)⟩

def Irq.with_rx_done (c : Irq) (value : Bool) : Irq :=
  ⟨(c.bits &&& 0xFFFD) ||| (value.toNat <<< 1)⟩

def Irq.with_preamble_detected (c : Irq) (value : Bool) : Irq :=
  ⟨(c.bits &&& 0xFFFB) ||| (value.toNat <<< 2)⟩

def Irq.with_sync_word_valid (c : Irq) (value : Bool) : Irq :=
  ⟨(c.bits &&& 0xFFF7) ||| (value.toNat <<< 3)⟩

def Irq.with_header_valid (c : Irq) (value : Bool) : Irq :=
  ⟨(c.bits &&& 0xFFEF) ||| (value.toNat <<< 4)⟩

def Irq.with_header_err (c : Irq) (value : Bool) : Irq :=
  ⟨(c.bits &&& 0xFFDF) ||| (value.toNat <<< 5)⟩

def Irq.with_crc_err (c : Irq) (value : Bool) : Irq :=
  ⟨(c.bits &&& 0xFFBF) ||| (value.toNat <<< 6)⟩

def Irq.with_cad_done (c : Irq) (value : Bool) : Irq :=
  ⟨(c.bits &&& 0xFF7F) ||| (value.toNat <<< 7)⟩

def Irq.with_cad_detected (c : Irq) (value : Bool) : Irq :=
  ⟨(c.bits &&& 0xFEFF) ||| (value.toNat <<< 8)⟩

def Irq.with_timeout (c : Irq) (value : Bool) : Irq :=
  ⟨(c.bits &&& 0xFDFF) ||| (value.toNat <<< 9)⟩

def Irq.with_lr_fhss_hop (c : Irq) (value : Bool) : Irq :=
  ⟨(c.bits &&& 0xBFFF) ||| (value.toNat <<< 14)⟩

def Irq.tx_done (c : Irq) : Bool := ((c.bits >>> 0) &&& 1) == 1

def Irq.rx_done (c : Irq) : Bool := ((c.bits >>> 1) &&& 1) == 1

def Irq.preamble_detected (c : Irq) : Bool := ((c.bits >>> 2) &&& 1) == 1

def Irq.sync_word_valid (c : Irq) : Bool := ((c.bits >>> 3) &&& 1) == 1

def Irq.header_valid (c : Irq) : Bool := ((c.bits >>> 4) &&& 1) == 1

def Irq.header_err (c : Irq) : Bool := ((c.bits >>> 5) &&& 1) == 1

def Irq.crc_err (c : Irq) : Bool := ((c.bits >>> 6) &&& 1) == 1

def Irq.cad_done (c : Irq) : Bool := ((c.bits >>> 7) &&& 1) == 1

def Irq.cad_detected (c : Irq) : Bool := ((c.bits >>> 8) &&& 1) == 1

def Irq.timeout (c : Irq) : Bool := ((c.bits >>> 9) &&& 1) == 1

def Irq.lr_fhss_hop (c : Irq) : Bool := ((c.bits >>> 14) &&& 1) == 1

def Irq.into_bits (c : Irq) : Nat := c.bits

def Irq.from_bits (v : Nat) : Irq := ⟨v⟩

/-! ## Enumerations decoded from receive bytes -/

/-- ChipMode enumeration: all eight 3-bit codes are declared members. -/
inductive ChipMode
  | Unused
  | Reserved1
  | StbyRc
  | StbyXosc
  | Fs
  | Rx
  | Tx
  | Reserved2
  deriving Repr, DecidableEq

def ChipMode.into_bits : ChipMode → Nat
  | .Unused => 0x0
  | .Reserved1 => 0x1
  | .StbyRc => 0x2
  | .StbyXosc => 0x3
  | .Fs => 0x4
  | .Rx => 0x5
  | .Tx => 0x6
  | .Reserved2 => 0x7

/-- The unchecked discriminant reinterpretation in ChipMode::from_bits,
modelled as the partial inverse of the discriminant table. -/
def ChipMode.transmute (v : Nat) : Option ChipMode :=
  if v = 0x0 then some .Unused
  else if v = 0x1 then some .Reserved1
  else if v = 0x2 then some .StbyRc
  else if v = 0x3 then some .StbyXosc
  else if v = 0x4 then some .Fs
  else if v = 0x5 then some .Rx
  else if v = 0x6 then some .Tx
  else if v = 0x7 then some .Reserved2
  else none

def ChipMode.from_bits (value : Nat) : Option ChipMode :=
  ChipMode.transmute (value &&& 0x07)

/-- CommandStatus enumeration: all eight 3-bit codes are declared members. -/
inductive CommandStatus
  | Reserved1
  | Reserved2
  | DataIsAvailableToHost
  | CommandTimeout
  | CommandProcessingError
  | FailureToExecuteCommand
  | CommandTxDone
  | Reserved3
  deriving Repr, DecidableEq

def CommandStatus.into_bits : CommandStatus → Nat
  | .Reserved1 => 0x0
  | .Reserved2 => 0x1
  | .DataIsAvailableToHost => 0x2
  | .CommandTimeout => 0x3
  | .CommandProcessingError => 0x4
  | .FailureToExecuteCommand => 0x5
  | .CommandTxDone => 0x6
  | .Reserved3 => 0x7

/-- The unchecked discriminant reinterpretation in CommandStatus::from_bits. -/
def CommandStatus.transmute (v : Nat) : Option CommandStatus :=
  if v = 0x0 then some .Reserved1
  else if v = 0x1 then some .Reserved2
  else if v = 0x2 then some .DataIsAvailableToHost
  else if v = 0x3 then some .CommandTimeout
  else if v = 0x4 then some .CommandProcessingError
  else if v = 0x5 then some .FailureToExecuteCommand
  else if v = 0x6 then some .CommandTxDone
  else if v = 0x7 then some .Reserved3
  else none

def CommandStatus.from_bits (value : Nat) : Option CommandStatus :=
  CommandStatus.transmute (value &&& 0x07)

/-- Status bitfield: u8, Msb order: reserved bit 7, chip_mode bits 6..4,
command_status bits 3..1, reserved bit 0. -/
structure Status where
  bits : Nat
  deriving Repr, DecidableEq

def Status.new : Status := ⟨0⟩

def Status.with_chip_mode (c : Status) (value : ChipMode) : Status :=
  ⟨(c.bits &&& 0x8F) ||| ((value.into_bits &&& 0x7) <<< 4)⟩

def Status.with_command_status (c : Status) (value : CommandStatus) : Status :=
  ⟨(c.bits &&& 0xF1) ||| ((value.into_bits &&& 0x7) <<< 1)⟩

def Status.chip_mode (c : Status) : Option ChipMode :=
  ChipMode.from_bits ((c.bits >>> 4) &&& 0x7)

def Status.command_status (c : Status) : Option CommandStatus :=
  CommandStatus.from_bits ((c.bits >>> 1) &&& 0x7)

def Status.into_bits (c : Status) : Nat := c.bits

def Status.from_bits (v : Nat) : Status := ⟨v⟩

/-- OpError bitfield: u16, Lsb order: seven error flags at bits 0..6,
pa_ramp_err at bit 8; bits 7 and 9..15 are reserved. -/
structure OpError where
  bits : Nat
  deriving Repr, DecidableEq

def OpError.new : OpError := ⟨0⟩

def OpError.with_rc64k_calib_err (c : OpError) (value : Bool) : OpError :=
  ⟨(c.bits &&& 0xFFFE) ||| (value.toNat <<< 0)⟩

def OpError.with_rc13m_calib_err (c : OpError) (value : Bool) : OpError :=
  ⟨(c.bits &&& 0xFFFD) ||| (value.toNat <<< 1)⟩

def OpError.with_pll_calib_err (c : OpError) (value : Bool) : OpError :=
  ⟨(c.bits &&& 0xFFFB) ||| (value.toNat <<< 2)⟩

def OpError.with_adc_calib_err (c : OpError) (value : Bool) : OpError :=
  ⟨(c.bits &&& 0xFFF7) ||| (value.toNat <<< 3)⟩

def OpError.with_img_calib_err (c : OpError) (value : Bool) : OpError :=
  ⟨(c.bits &&& 0xFFEF) ||| (value.toNat <<< 4)⟩

def OpError.with_xosc_start_err (c : OpError) (value : Bool) : OpError :=
  ⟨(c.bits &&& 0xFFDF) ||| (value.toNat <<< 5)⟩

def OpError.with_pll_lock_err (c : OpError) (value : Bool) : OpError :=
  ⟨(c.bits &&& 0xFFBF) ||| (value.toNat <<< 6)⟩

def OpError.with_pa_ramp_err (c : OpError) (value : Bool) : OpError :=
  ⟨(c.bits &&& 0xFEFF) ||| (value.toNat <<< 8)⟩

def OpError.rc64k_calib_err (c : OpError) : Bool := ((c.bits >>> 0) &&& 1) == 1

def OpError.rc13m_calib_err (c : OpError) : Bool := ((c.bits >>> 1) &&& 1) == 1

def OpError.pll_calib_err (c : OpError) : Bool := ((c.bits >>> 2) &&& 1) == 1

def OpError.adc_calib_err (c : OpError) : Bool := ((c.bits >>> 3) &&& 1) == 1

def OpError.img_calib_err (c : OpError) : Bool := ((c.bits >>> 4) &&& 1) == 1

def OpError.xosc_start_err (c : OpError) : Bool := ((c.bits >>> 5) &&& 1) == 1

def OpError.pll_lock_err (c : OpError) : Bool := ((c.bits >>> 6) &&& 1) == 1

def OpError.pa_ramp_err (c : OpError) : Bool := ((c.bits >>> 8) &&& 1) == 1

def OpError.into_bits (c : OpError) : Nat := c.bits

def OpError.from_bits (v : Nat) : OpError := ⟨v⟩

/-! ## Parameter enumerations (repr u8, encoded by their discriminant cast) -/

inductive StdbyConfig
  | StdbyRc
  | StdbyXosc
  deriving Repr, DecidableEq

def StdbyConfig.toByte : StdbyConfig → Nat
  | .StdbyRc => 0
  | .StdbyXosc => 1

inductive FallbackMode
  | Fs
  | StdbyXosc
  | StdbyRc
  deriving Repr, DecidableEq

def FallbackMode.toByte : FallbackMode → Nat
  | .Fs => 0x40
  | .StdbyXosc => 0x30
  | .StdbyRc => 0x20

inductive TcxoVoltage
  | V1_6
  | V1_7
  | V1_8
  | V2_2
  | V2_4
  | V2_7
  | V3_0
  | V3_3
  deriving Repr, DecidableEq

def TcxoVoltage.toByte : TcxoVoltage → Nat
  | .V1_6 => 0x00
  | .V1_7 => 0x01
  | .V1_8 => 0x02
  | .V2_2 => 0x03
  | .V2_4 => 0x04
  | .V2_7 => 0x05
  | .V3_0 => 0x06
  | .V3_3 => 0x07

inductive PacketType
  | Gfsk
  | Lora
  | Reserved
  | LrFhss
  deriving Repr, DecidableEq

def PacketType.toByte : PacketType → Nat
  | .Gfsk => 0x00
  | .Lora => 0x01
  | .Reserved => 0x02
  | .LrFhss => 0x03

/-- The unchecked discriminant reinterpretation in PacketType::from. -/
def PacketType.transmute (v : Nat) : Option PacketType :=
  if v = 0x00 then some .Gfsk
  else if v = 0x01 then some .Lora
  else if v = 0x02 then some .Reserved
  else if v = 0x03 then some .LrFhss
  else none

def PacketType.from_raw (value : Nat) : Option PacketType :=
  PacketType.transmute (value &&& 0x03)

inductive RampTime
  | Ramp10U
  | Ramp20U
  | Ramp40U
  | Ramp80U
  | Ramp200U
  | Ramp800U
  | Ramp1700U
  | Ramp3400U
  deriving Repr, DecidableEq

def RampTime.toByte : RampTime → Nat
  | .Ramp10U => 0x00
  | .Ramp20U => 0x01
  | .Ramp40U => 0x02
  | .Ramp80U => 0x03
  | .Ramp200U => 0x04
  | .Ramp800U => 0x05
  | .Ramp1700U => 0x06
  | .Ramp3400U => 0x07

inductive Sf
  | Sf5
  | Sf6
  | Sf7
  | Sf8
  | Sf9
  | Sf10
  | Sf11
  | Sf12
  deriving Repr, DecidableEq

def Sf.toByte : Sf → Nat
  | .Sf5 => 0x05
  | .Sf6 => 0x06
  | .Sf7 => 0x07
  | .Sf8 => 0x08
  | .Sf9 => 0x09
  | .Sf10 => 0x0A
  | .Sf11 => 0x0B
  | .Sf12 => 0x0C

inductive Bw
  | Bw7_8
  | Bw10_42
  | Bw15_63
  | Bw20_83
  | Bw31_25
  | Bw41_67
  | Bw62_50
  | Bw125
  | Bw250
  | Bw500
  deriving Repr, DecidableEq

def Bw.toByte : Bw → Nat
  | .Bw7_8 => 0x00
  | .Bw10_42 => 0x08
  | .Bw15_63 => 0x01
  | .Bw20_83 => 0x09
  | .Bw31_25 => 0x02
  | .Bw41_67 => 0x0A
  | .Bw62_50 => 0x03
  | .Bw125 => 0x04
  | .Bw250 => 0x05
  | .Bw500 => 0x06

inductive Cr
  | Cr4_5
  | Cr4_6
  | Cr4_7
  | Cr4_8
  | Cr4_5Li
  | Cr4_6Li
  | Cr4_8Li
  deriving Repr, DecidableEq

def Cr.toByte : Cr → Nat
  | .Cr4_5 => 0x01
  | .Cr4_6 => 0x02
  | .Cr4_7 => 0x03
  | .Cr4_8 => 0x04
  | .Cr4_5Li => 0x05
  | .Cr4_6Li => 0x06
  | .Cr4_8Li => 0x07

inductive HeaderType
  | VariableLength
  | FixedLength
  deriving Repr, DecidableEq

def HeaderType.toByte : HeaderType → Nat
  | .VariableLength => 0x00
  | .FixedLength => 0x01

inductive InvertIq
  | Standard
  | Inverted
  deriving Repr, DecidableEq

def InvertIq.toByte : InvertIq → Nat
  | .Standard => 0x00
  | .Inverted => 0x01

inductive CadSymbolNum
  | CadOn1Symb
  | CadOn2Symb
  | CadOn4Symb
  | CadOn8Symb
  | CadOn16Symb
  deriving Repr, DecidableEq

def CadSymbolNum.toByte : CadSymbolNum → Nat
  | .CadOn1Symb => 0x00
  | .CadOn2Symb => 0x01
  | .CadOn4Symb => 0x02
  | .CadOn8Symb => 0x03
  | .CadOn16Symb => 0x04

inductive CadExitMode
  | CadOnly
  | CadRx
  deriving Repr, DecidableEq

def CadExitMode.toByte : CadExitMode → Nat
  | .CadOnly => 0x00
  | .CadRx => 0x01

/-! ## Registers (src/registers.rs) -/

/-- The Register trait: a fixed 16-bit address and a single-byte codec. -/
class Register (R : Type) where
  ADDRESS : Nat
  bits : R → Nat
  from_bits : Nat → R

structure LoraSyncWordMsb where
  val : Nat
  deriving Repr, DecidableEq

instance : Register LoraSyncWordMsb where
  ADDRESS := 0x0740
  bits r := r.val
  from_bits b := ⟨b⟩

structure LoraSyncWordLsb where
  val : Nat
  deriving Repr, DecidableEq

instance : Register LoraSyncWordLsb where
  ADDRESS := 0x0741
  bits r := r.val
  from_bits b := ⟨b⟩

structure RandomNumberGen0 where
  val : Nat
  deriving Repr, DecidableEq

instance : Register RandomNumberGen0 where
  ADDRESS := 0x0819
  bits r := r.val
  from_bits b := ⟨b⟩

inductive RxGainSetting
  | Unknown
  | PowerSaving
  | Boosted
  deriving Repr, DecidableEq

def RxGainSetting.toByte : RxGainSetting → Nat
  | .Unknown => 0x00
  | .PowerSaving => 0x94
  | .Boosted => 0x96

def RxGainSetting.from_raw (value : Nat) : RxGainSetting :=
  if value = 0x94 then .PowerSaving
  else if value = 0x96 then .Boosted
  else .Unknown

structure RxGain where
  setting : RxGainSetting
  deriving Repr, DecidableEq

instance : Register RxGain where
  ADDRESS := 0x08AC
  bits r := r.setting.toByte
  from_bits b := ⟨RxGainSetting.from_raw b⟩

structure RxGainRetention0 where
  val : Nat
  deriving Repr, DecidableEq

instance : Register RxGainRetention0 where
  ADDRESS := 0x029F
  bits r := r.val
  from_bits b := ⟨b⟩

structure RxGainRetention1 where
  val : Nat
  deriving Repr, DecidableEq

instance : Register RxGainRetention1 where
  ADDRESS := 0x02A0
  bits r := r.val
  from_bits b := ⟨b⟩

structure RxGainRetention2 where
  val : Nat
  deriving Repr, DecidableEq

instance : Register RxGainRetention2 where
  ADDRESS := 0x02A1
  bits r := r.val
  from_bits b := ⟨b⟩

/-! ## Command catalog (src/commands.rs)

Each fixed-size command is a pair of byte buffers; `new` mirrors the
constructor byte for byte and `descriptor` reports the same literal
transfer length the source writes.  The four const-generic commands are
indexed by their capacity N and carry the two array-length invariants. -/

structure SetSleep where
  tx_buf : List Nat
  rx_buf : List Nat
  deriving Repr, DecidableEq

def SetSleep.OPCODE : Nat := 0x84

def SetSleep.new (warm_start : Bool) : SetSleep where
  tx_buf := [SetSleep.OPCODE, (SleepConfig.new.with_warm_start warm_start).into_bits]
  rx_buf := List.replicate 2 0

def SetSleep.descriptor (c : SetSleep) : SpiDescriptor :=
  ⟨c.tx_buf, c.rx_buf, 2⟩

structure SetStandby where
  tx_buf : List Nat
  rx_buf : List Nat
  deriving Repr, DecidableEq

def SetStandby.OPCODE : Nat := 0x80

def SetStandby.new (stdby_config : StdbyConfig) : SetStandby where
  tx_buf := [SetStandby.OPCODE, stdby_config.toByte]
  rx_buf := List.replicate 2 0

def SetStandby.descriptor (c : SetStandby) : SpiDescriptor :=
  ⟨c.tx_buf, c.rx_buf, 2⟩

structure SetFs where
  tx_buf : List Nat
  rx_buf : List Nat
  deriving Repr, DecidableEq

def SetFs.OPCODE : Nat := 0xC1

def SetFs.new : SetFs where
  tx_buf := [SetFs.OPCODE]
  rx_buf := List.replicate 1 0

def SetFs.descriptor (c : SetFs) : SpiDescriptor :=
  ⟨c.tx_buf, c.rx_buf, 1⟩

structure SetTx where
  tx_buf : List Nat
  rx_buf : List Nat
  deriving Repr, DecidableEq

def SetTx.OPCODE : Nat := 0x83

def SetTx.new (timeout : Nat) : SetTx where
  tx_buf := [SetTx.OPCODE, u8 (timeout >>> 16), u8 (timeout >>> 8), u8 timeout]
  rx_buf := List.replicate 4 0

def SetTx.descriptor (c : SetTx) : SpiDescriptor :=
  ⟨c.tx_buf, c.rx_buf, 4⟩

structure SetRx where
  tx_buf : List Nat
  rx_buf : List Nat
  deriving Repr, DecidableEq

def SetRx.OPCODE : Nat := 0x82

def SetRx.new (timeout : Nat) : SetRx where
  tx_buf := [SetRx.OPCODE, u8 (timeout >>> 16), u8 (timeout >>> 8), u8 timeout]
  rx_buf := List.replicate 4 0

def SetRx.descriptor (c : SetRx) : SpiDescriptor :=
  ⟨c.tx_buf, c.rx_buf, 4⟩

structure StopTimerOnPreamble where
  tx_buf : List Nat
  rx_buf : List Nat
  deriving Repr, DecidableEq

def StopTimerOnPreamble.OPCODE : Nat := 0x9F

def StopTimerOnPreamble.new (stop_on_preamble : Bool) : StopTimerOnPreamble where
  tx_buf := [StopTimerOnPreamble.OPCODE, stop_on_preamble.toNat]
  rx_buf := List.replicate 2 0

def StopTimerOnPreamble.descriptor (c : StopTimerOnPreamble) : SpiDescriptor :=
  ⟨c.tx_buf, c.rx_buf, 2⟩

structure SetRxDutyCycle where
  tx_buf : List Nat
  rx_buf : List Nat
  deriving Repr, DecidableEq

def SetRxDutyCycle.OPCODE : Nat := 0x94

def SetRxDutyCycle.new (rx_period sleep_period : Nat) : SetRxDutyCycle where
  tx_buf := [SetRxDutyCycle.OPCODE,
    u8 (rx_period >>> 16), u8 (rx_period >>> 8), u8 rx_period,
    u8 (sleep_period >>> 16), u8 (sleep_period >>> 8), u8 sleep_period]
  rx_buf := List.replicate 7 0

def SetRxDutyCycle.descriptor (c : SetRxDutyCycle) : SpiDescriptor :=
  ⟨c.tx_buf, c.rx_buf, 7⟩

structure SetCad where
  tx_buf : List Nat
  rx_buf : List Nat
  deriving Repr, DecidableEq

def SetCad.OPCODE : Nat := 0xC5

def SetCad.new : SetCad where
  tx_buf := [SetCad.OPCODE]
  rx_buf := List.replicate 1 0

def SetCad.descriptor (c : SetCad) : SpiDescriptor :=
  ⟨c.tx_buf, c.rx_buf, 1⟩

structure SetTxContinuousWave where
  tx_buf : List Nat
  rx_buf : List Nat
  deriving Repr, DecidableEq

def SetTxContinuousWave.OPCODE : Nat := 0xD1

def SetTxContinuousWave.new : SetTxContinuousWave where
  tx_buf := [SetTxContinuousWave.OPCODE]
  rx_buf := List.replicate 1 0

def SetTxContinuousWave.descriptor (c : SetTxContinuousWave) : SpiDescriptor :=
  ⟨c.tx_buf, c.rx_buf, 1⟩

structure SetTxInfinitePreamble where
  tx_buf : List Nat
  rx_buf : List Nat
  deriving Repr, DecidableEq

def SetTxInfinitePreamble.OPCODE : Nat := 0xD2

def SetTxInfinitePreamble.new : SetTxInfinitePreamble where
  tx_buf := [SetTxInfinitePreamble.OPCODE]
  rx_buf := List.replicate 1 0

def SetTxInfinitePreamble.descriptor (c : SetTxInfinitePreamble) : SpiDescriptor :=
  ⟨c.tx_buf, c.rx_buf, 1⟩

structure SetRegulatorMode where
  tx_buf : List Nat
  rx_buf : List Nat
  deriving Repr, DecidableEq

def SetRegulatorMode.OPCODE : Nat := 0x96

def SetRegulatorMode.new (dc_dc_mode : Bool) : SetRegulatorMode where
  tx_buf := [SetRegulatorMode.OPCODE, dc_dc_mode.toNat]
  rx_buf := List.replicate 2 0

def SetRegulatorMode.descriptor (c : SetRegulatorMode) : SpiDescriptor :=
  ⟨c.tx_buf, c.rx_buf, 2⟩

structure Calibrate where
  tx_buf : List Nat
  rx_buf : List Nat
  deriving Repr, DecidableEq

def Calibrate.OPCODE : Nat := 0x89

def Calibrate.new (calib_param : CalibrationSetting) : Calibrate where
  tx_buf := [Calibrate.OPCODE, calib_param.into_bits]
  rx_buf := List.replicate 2 0

def Calibrate.descriptor (c : Calibrate) : SpiDescriptor :=
  ⟨c.tx_buf, c.rx_buf, 2⟩

structure CalibrateImage where
  tx_buf : List Nat
  rx_buf : List Nat
  deriving Repr, DecidableEq

def CalibrateImage.OPCODE : Nat := 0x98

def CalibrateImage.new (freq1 freq2 : Nat) : CalibrateImage where
  tx_buf := [CalibrateImage.OPCODE, freq1, freq2]
  rx_buf := List.replicate 3 0

def CalibrateImage.descriptor (c : CalibrateImage) : SpiDescriptor :=
  ⟨c.tx_buf, c.rx_buf, 3⟩

structure SetPaConfig where
  tx_buf : List Nat
  rx_buf : List Nat
  deriving Repr, DecidableEq

def SetPaConfig.OPCODE : Nat := 0x95

def SetPaConfig.new (pa_duty_cycle hp_max device_sel : Nat) : SetPaConfig where
  tx_buf := [SetPaConfig.OPCODE, pa_duty_cycle, hp_max, device_sel, 0x01]
  rx_buf := List.replicate 5 0

def SetPaConfig.descriptor (c : SetPaConfig) : SpiDescriptor :=
  ⟨c.tx_buf, c.rx_buf, 5⟩

structure SetRxTxFallbackMode where
  tx_buf : List Nat
  rx_buf : List Nat
  deriving Repr, DecidableEq

def SetRxTxFallbackMode.OPCODE : Nat := 0x93

def SetRxTxFallbackMode.new (fallback_mode : FallbackMode) : SetRxTxFallbackMode where
  tx_buf := [SetRxTxFallbackMode.OPCODE, fallback_mode.toByte]
  rx_buf := List.replicate 2 0

def SetRxTxFallbackMode.descriptor (c : SetRxTxFallbackMode) : SpiDescriptor :=
  ⟨c.tx_buf, c.rx_buf, 2⟩

structure WriteRegister where
  tx_buf : List Nat
  rx_buf : List Nat
  deriving Repr, DecidableEq

def WriteRegister.OPCODE : Nat := 0x0D

def WriteRegister.new (R : Type) [Register R] (register : R) : WriteRegister where
  tx_buf := [WriteRegister.OPCODE, u8 (Register.ADDRESS R >>> 8), u8 (Register.ADDRESS R),
    Register.bits register]
  rx_buf := List.replicate 4 0

def WriteRegister.descriptor (c : WriteRegister) : SpiDescriptor :=
  ⟨c.tx_buf, c.rx_buf, 4⟩

structure WriteRegisters (n : Nat) where
  tx_buf : List Nat
  rx_buf : List Nat
  htx : tx_buf.length = n
  hrx : rx_buf.length = n

def WriteRegisters.OPCODE : Nat := 0x0D

def WriteRegisters.new (R : Type) [Register R] (data : List Nat) :
    WriteRegisters (data.length + 3) where
  tx_buf := WriteRegisters.OPCODE :: u8 (Register.ADDRESS R >>> 8) ::
    u8 (Register.ADDRESS R) :: data
  rx_buf := List.replicate (data.length + 3) 0
  htx := by simp
  hrx := by simp

def WriteRegisters.descriptor {n : Nat} (c : WriteRegisters n) : SpiDescriptor :=
  ⟨c.tx_buf, c.rx_buf, n % 65536⟩

structure ReadRegister (R : Type) where
  tx_buf : List Nat
  rx_buf : List Nat
  deriving Repr, DecidableEq

def ReadRegister.OPCODE : Nat := 0x1D

def ReadRegister.new (R : Type) [Register R] : ReadRegister R where
  tx_buf := [ReadRegister.OPCODE, u8 (Register.ADDRESS R >>> 8), u8 (Register.ADDRESS R), 0, 0]
  rx_buf := List.replicate 5 0

def ReadRegister.descriptor {R : Type} (c : ReadRegister R) : SpiDescriptor :=
  ⟨c.tx_buf, c.rx_buf, 5⟩

def ReadRegister.register {R : Type} [Register R] (c : ReadRegister R) : R :=
  Register.from_bits (c.rx_buf.getD 4 0)

structure ReadRegisters (n : Nat) where
  tx_buf : List Nat
  rx_buf : List Nat
  htx : tx_buf.length = n
  hrx : rx_buf.length = n

def ReadRegisters.OPCODE : Nat := 0x1D

def ReadRegisters.new (R : Type) [Register R] (n : Nat) (hn : 3 ≤ n) : ReadRegisters n where
  tx_buf := ReadRegisters.OPCODE :: u8 (Register.ADDRESS R >>> 8) ::
    u8 (Register.ADDRESS R) :: List.replicate (n - 3) 0
  rx_buf := List.replicate n 0
  htx := by simp; omega
  hrx := by simp

def ReadRegisters.descriptor {n : Nat} (c : ReadRegisters n) : SpiDescriptor :=
  ⟨c.tx_buf, c.rx_buf, n % 65536⟩

structure WriteBuffer (n : Nat) where
  tx_buf : List Nat
  rx_buf : List Nat
  htx : tx_buf.length = n
  hrx : rx_buf.length = n

def WriteBuffer.OPCODE : Nat := 0x0E

def WriteBuffer.new (offset : Nat) (data : List Nat) : WriteBuffer (data.length + 2) where
  tx_buf := WriteBuffer.OPCODE :: offset :: data
  rx_buf := List.replicate (data.length + 2) 0
  htx := by simp
  hrx := by simp

def WriteBuffer.descriptor {n : Nat} (c : WriteBuffer n) : SpiDescriptor :=
  ⟨c.tx_buf, c.rx_buf, n % 65536⟩

structure ReadBuffer (n : Nat) where
  tx_buf : List Nat
  rx_buf : List Nat
  htx : tx_buf.length = n
  hrx : rx_buf.length = n

def ReadBuffer.OPCODE : Nat := 0x1E

def ReadBuffer.new (n : Nat) (offset : Nat) (hn : 2 ≤ n) : ReadBuffer n where
  tx_buf := ReadBuffer.OPCODE :: offset :: List.replicate (n - 2) 0
  rx_buf := List.replicate n 0
  htx := by simp; omega
  hrx := by simp

def ReadBuffer.descriptor {n : Nat} (c : ReadBuffer n) : SpiDescriptor :=
  ⟨c.tx_buf, c.rx_buf, n % 65536⟩

def ReadBuffer.data {n : Nat} (c : ReadBuffer n) : List Nat :=
  c.rx_buf.drop 3

/-- Transport writes into the receive buffer of an indexed command; the
capacity and the transmit buffer are untouched. -/
def WriteBuffer.writeRx {n : Nat} (c : WriteBuffer n) (i b : Nat) : WriteBuffer n :=
  ⟨c.tx_buf, c.rx_buf.set i b, c.htx, by rw [List.length_set]; exact c.hrx⟩

def ReadBuffer.writeRx {n : Nat} (c : ReadBuffer n) (i b : Nat) : ReadBuffer n :=
  ⟨c.tx_buf, c.rx_buf.set i b, c.htx, by rw [List.length_set]; exact c.hrx⟩

def WriteRegisters.writeRx {n : Nat} (c : WriteRegisters n) (i b : Nat) : WriteRegisters n :=
  ⟨c.tx_buf, c.rx_buf.set i b, c.htx, by rw [List.length_set]; exact c.hrx⟩

def ReadRegisters.writeRx {n : Nat} (c : ReadRegisters n) (i b : Nat) : ReadRegisters n :=
  ⟨c.tx_buf, c.rx_buf.set i b, c.htx, by rw [List.length_set]; exact c.hrx⟩

structure SetDioIrqParams where
  tx_buf : List Nat
  rx_buf : List Nat
  deriving Repr, DecidableEq

def SetDioIrqParams.OPCODE : Nat := 0x08

def SetDioIrqParams.new (irq_mask dio1_mask dio2_mask dio3_mask : Irq) : SetDioIrqParams where
  tx_buf := [SetDioIrqParams.OPCODE,
    u8 (irq_mask.into_bits >>> 8), u8 irq_mask.into_bits,
    u8 (dio1_mask.into_bits >>> 8), u8 dio1_mask.into_bits,
    u8 (dio2_mask.into_bits >>> 8), u8 dio2_mask.into_bits,
    u8 (dio3_mask.into_bits >>> 8), u8 dio3_mask.into_bits]
  rx_buf := List.replicate 9 0

def SetDioIrqParams.descriptor (c : SetDioIrqParams) : SpiDescriptor :=
  ⟨c.tx_buf, c.rx_buf, 9⟩

structure GetIrqStatus where
  tx_buf : List Nat
  rx_buf : List Nat
  deriving Repr, DecidableEq

def GetIrqStatus.OPCODE : Nat := 0x12

def GetIrqStatus.new : GetIrqStatus where
  tx_buf := [GetIrqStatus.OPCODE, 0, 0, 0]
  rx_buf := List.replicate 4 0

def GetIrqStatus.descriptor (c : GetIrqStatus) : SpiDescriptor :=
  ⟨c.tx_buf, c.rx_buf, 4⟩

def GetIrqStatus.irq_status (c : GetIrqStatus) : Irq :=
  Irq.from_bits ((c.rx_buf.getD 2 0 <<< 8) ||| c.rx_buf.getD 3 0)

structure ClearIrqStatus where
  tx_buf : List Nat
  rx_buf : List Nat
  deriving Repr, DecidableEq

def ClearIrqStatus.OPCODE : Nat := 0x02

def ClearIrqStatus.new (clear_irq_param : Irq) : ClearIrqStatus where
  tx_buf := [ClearIrqStatus.OPCODE,
    u8 (clear_irq_param.into_bits >>> 8), u8 clear_irq_param.into_bits]
  rx_buf := List.replicate 3 0

def ClearIrqStatus.descriptor (c : ClearIrqStatus) : SpiDescriptor :=
  ⟨c.tx_buf, c.rx_buf, 3⟩

structure SetDio2AsRfSwitchCtrl where
  tx_buf : List Nat
  rx_buf : List Nat
  deriving Repr, DecidableEq

def SetDio2AsRfSwitchCtrl.OPCODE : Nat := 0x9D

def SetDio2AsRfSwitchCtrl.new (enable : Bool) : SetDio2AsRfSwitchCtrl where
  tx_buf := [SetDio2AsRfSwitchCtrl.OPCODE, enable.toNat]
  rx_buf := List.replicate 2 0

def SetDio2AsRfSwitchCtrl.descriptor (c : SetDio2AsRfSwitchCtrl) : SpiDescriptor :=
  ⟨c.tx_buf, c.rx_buf, 2⟩

structure SetDio3AsTcxoCtrl where
  tx_buf : List Nat
  rx_buf : List Nat
  deriving Repr, DecidableEq

def SetDio3AsTcxoCtrl.OPCODE : Nat := 0x97

def SetDio3AsTcxoCtrl.new (tcxo_voltage : TcxoVoltage) (delay : Nat) : SetDio3AsTcxoCtrl where
  tx_buf := [SetDio3AsTcxoCtrl.OPCODE, tcxo_voltage.toByte,
    u8 (delay >>> 16), u8 (delay >>> 8), u8 delay]
  rx_buf := List.replicate 5 0

def SetDio3AsTcxoCtrl.descriptor (c : SetDio3AsTcxoCtrl) : SpiDescriptor :=
  ⟨c.tx_buf, c.rx_buf, 5⟩

structure SetRfFrequency where
  tx_buf : List Nat
  rx_buf : List Nat
  deriving Repr, DecidableEq

def SetRfFrequency.OPCODE : Nat := 0x86

def SetRfFrequency.new (rf_freq : Nat) : SetRfFrequency where
  tx_buf := [SetRfFrequency.OPCODE,
    u8 (rf_freq >>> 24), u8 (rf_freq >>> 16), u8 (rf_freq >>> 8), u8 rf_freq]
  rx_buf := List.replicate 5 0

def SetRfFrequency.descriptor (c : SetRfFrequency) : SpiDescriptor :=
  ⟨c.tx_buf, c.rx_buf, 5⟩

structure SetPacketType where
  tx_buf : List Nat
  rx_buf : List Nat
  deriving Repr, DecidableEq

def SetPacketType.OPCODE : Nat := 0x8A

def SetPacketType.new (packet_type : PacketType) : SetPacketType where
  tx_buf := [SetPacketType.OPCODE, packet_type.toByte]
  rx_buf := List.replicate 2 0

def SetPacketType.descriptor (c : SetPacketType) : SpiDescriptor :=
  ⟨c.tx_buf, c.rx_buf, 2⟩

structure GetPacketType where
  tx_buf : List Nat
  rx_buf : List Nat
  deriving Repr, DecidableEq

def GetPacketType.OPCODE : Nat := 0x11

def GetPacketType.new : GetPacketType where
  tx_buf := [GetPacketType.OPCODE, 0, 0]
  rx_buf := List.replicate 3 0

def GetPacketType.descriptor (c : GetPacketType) : SpiDescriptor :=
  ⟨c.tx_buf, c.rx_buf, 3⟩

def GetPacketType.packet_type (c : GetPacketType) : Option PacketType :=
  PacketType.from_raw (c.rx_buf.getD 2 0)

structure SetTxParams where
  tx_buf : List Nat
  rx_buf : List Nat
  deriving Repr, DecidableEq

def SetTxParams.OPCODE : Nat := 0x8E

def SetTxParams.new (power : Nat) (ramp_time : RampTime) : SetTxParams where
  tx_buf := [SetTxParams.OPCODE, power, ramp_time.toByte]
  rx_buf := List.replicate 3 0

def SetTxParams.descriptor (c : SetTxParams) : SpiDescriptor :=
  ⟨c.tx_buf, c.rx_buf, 3⟩

structure SetModulationParamsLora where
  tx_buf : List Nat
  rx_buf : List Nat
  deriving Repr, DecidableEq

def SetModulationParamsLora.OPCODE : Nat := 0x8B

def SetModulationParamsLora.new (sf : Sf) (bw : Bw) (cr : Cr) (low_data_rate_optimize : Bool) :
    SetModulationParamsLora where
  tx_buf := [SetModulationParamsLora.OPCODE, sf.toByte, bw.toByte, cr.toByte,
    low_data_rate_optimize.toNat]
  rx_buf := List.replicate 5 0

def SetModulationParamsLora.descriptor (c : SetModulationParamsLora) : SpiDescriptor :=
  ⟨c.tx_buf, c.rx_buf, 5⟩

structure SetPacketParams where
  tx_buf : List Nat
  rx_buf : List Nat
  deriving Repr, DecidableEq

def SetPacketParams.OPCODE : Nat := 0x8C

def SetPacketParams.new (preamble_length : Nat) (header_type : HeaderType)
    (payload_length : Nat) (crc_type : Bool) (invert_iq : InvertIq) : SetPacketParams where
  tx_buf := [SetPacketParams.OPCODE, u8 (preamble_length >>> 8), u8 preamble_length,
    header_type.toByte, payload_length, crc_type.toNat, invert_iq.toByte]
  rx_buf := List.replicate 7 0

def SetPacketParams.descriptor (c : SetPacketParams) : SpiDescriptor :=
  ⟨c.tx_buf, c.rx_buf, 7⟩

structure SetCadParams where
  tx_buf : List Nat
  rx_buf : List Nat
  deriving Repr, DecidableEq

def SetCadParams.OPCODE : Nat := 0x88

def SetCadParams.new (symbol_num : CadSymbolNum) (det_peak det_min : Nat)
    (exit_mode : CadExitMode) (timeout : Nat) : SetCadParams where
  tx_buf := [SetCadParams.OPCODE, symbol_num.toByte, det_peak, det_min, exit_mode.toByte,
    u8 (timeout >>> 16), u8 (timeout >>> 8), u8 timeout]
  rx_buf := List.replicate 8 0

def SetCadParams.descriptor (c : SetCadParams) : SpiDescriptor :=
  ⟨c.tx_buf, c.rx_buf, 8⟩

structure SetBufferBaseAddress where
  tx_buf : List Nat
  rx_buf : List Nat
  deriving Repr, DecidableEq

def SetBufferBaseAddress.OPCODE : Nat := 0x8F

def SetBufferBaseAddress.new (tx_base_address rx_base_address : Nat) : SetBufferBaseAddress where
  tx_buf := [SetBufferBaseAddress.OPCODE, tx_base_address, rx_base_address]
  rx_buf := List.replicate 3 0

def SetBufferBaseAddress.descriptor (c : SetBufferBaseAddress) : SpiDescriptor :=
  ⟨c.tx_buf, c.rx_buf, 3⟩

structure SetLoraSymbNumTimeout where
  tx_buf : List Nat
  rx_buf : List Nat
  deriving Repr, DecidableEq

def SetLoraSymbNumTimeout.OPCODE : Nat := 0xA0

def SetLoraSymbNumTimeout.new (symb_num : Nat) : SetLoraSymbNumTimeout where
  tx_buf := [SetLoraSymbNumTimeout.OPCODE, symb_num]
  rx_buf := List.replicate 2 0

def SetLoraSymbNumTimeout.descriptor (c : SetLoraSymbNumTimeout) : SpiDescriptor :=
  ⟨c.tx_buf, c.rx_buf, 2⟩

structure GetStatus where
  tx_buf : List Nat
  rx_buf : List Nat
  deriving Repr, DecidableEq

def GetStatus.OPCODE : Nat := 0xC0

def GetStatus.new : GetStatus where
  tx_buf := [GetStatus.OPCODE, 0]
  rx_buf := List.replicate 2 0

def GetStatus.descriptor (c : GetStatus) : SpiDescriptor :=
  ⟨c.tx_buf, c.rx_buf, 2⟩

def GetStatus.status (c : GetStatus) : Status :=
  Status.from_bits (c.rx_buf.getD 1 0)

structure GetRssiInst where
  tx_buf : List Nat
  rx_buf : List Nat
  deriving Repr, DecidableEq

def GetRssiInst.OPCODE : Nat := 0x15

def GetRssiInst.new : GetRssiInst where
  tx_buf := [GetRssiInst.OPCODE, 0, 0]
  rx_buf := List.replicate 3 0

def GetRssiInst.descriptor (c : GetRssiInst) : SpiDescriptor :=
  ⟨c.tx_buf, c.rx_buf, 3⟩

def GetRssiInst.rssi_inst (c : GetRssiInst) : Int :=
  -(i8 (c.rx_buf.getD 2 0 / 2))

structure GetRxBufferStatus where
  tx_buf : List Nat
  rx_buf : List Nat
  deriving Repr, DecidableEq

def GetRxBufferStatus.OPCODE : Nat := 0x13

def GetRxBufferStatus.new : GetRxBufferStatus where
  tx_buf := [GetRxBufferStatus.OPCODE, 0, 0, 0]
  rx_buf := List.replicate 4 0

def GetRxBufferStatus.descriptor (c : GetRxBufferStatus) : SpiDescriptor :=
  ⟨c.tx_buf, c.rx_buf, 4⟩

def GetRxBufferStatus.payload_length_rx (c : GetRxBufferStatus) : Nat :=
  c.rx_buf.getD 2 0

def GetRxBufferStatus.rx_start_buffer_pointer (c : GetRxBufferStatus) : Nat :=
  c.rx_buf.getD 3 0

structure GetPacketStatusLora where
  tx_buf : List Nat
  rx_buf : List Nat
  deriving Repr, DecidableEq

def GetPacketStatusLora.OPCODE : Nat := 0x14

def GetPacketStatusLora.new : GetPacketStatusLora where
  tx_buf := [GetPacketStatusLora.OPCODE, 0, 0, 0, 0]
  rx_buf := List.replicate 5 0

def GetPacketStatusLora.descriptor (c : GetPacketStatusLora) : SpiDescriptor :=
  ⟨c.tx_buf, c.rx_buf, 5⟩

def GetPacketStatusLora.rssi_pkt (c : GetPacketStatusLora) : Int :=
  -(i8 (c.rx_buf.getD 2 0 / 2))

def GetPacketStatusLora.snr_pkt (c : GetPacketStatusLora) : Int :=
  Int.tdiv (i8 (c.rx_buf.getD 3 0)) 4

def GetPacketStatusLora.signal_rssi_pkt (c : GetPacketStatusLora) : Int :=
  -(i8 (c.rx_buf.getD 4 0 / 2))

structure GetStatsLora where
  tx_buf : List Nat
  rx_buf : List Nat
  deriving Repr, DecidableEq

def GetStatsLora.OPCODE : Nat := 0x10

def GetStatsLora.new : GetStatsLora where
  tx_buf := [GetStatsLora.OPCODE, 0, 0, 0, 0, 0, 0, 0]
  rx_buf := List.replicate 8 0

def GetStatsLora.descriptor (c : GetStatsLora) : SpiDescriptor :=
  ⟨c.tx_buf, c.rx_buf, 8⟩

def GetStatsLora.nb_pkt_received (c : GetStatsLora) : Nat :=
  (c.rx_buf.getD 2 0 <<< 8) ||| c.rx_buf.getD 3 0

def GetStatsLora.nb_pkt_crc_error (c : GetStatsLora) : Nat :=
  (c.rx_buf.getD 4 0 <<< 8) ||| c.rx_buf.getD 5 0

def GetStatsLora.nb_pkt_header_err (c : GetStatsLora) : Nat :=
  (c.rx_buf.getD 6 0 <<< 8) ||| c.rx_buf.getD 7 0

structure ResetStats where
  tx_buf : List Nat
  rx_buf : List Nat
  deriving Repr, DecidableEq

def ResetStats.OPCODE : Nat := 0x00

def ResetStats.new : ResetStats where
  tx_buf := [ResetStats.OPCODE, 0, 0, 0, 0, 0, 0]
  rx_buf := List.replicate 7 0

def ResetStats.descriptor (c : ResetStats) : SpiDescriptor :=
  ⟨c.tx_buf, c.rx_buf, 7⟩

structure GetDeviceErrors where
  tx_buf : List Nat
  rx_buf : List Nat
  deriving Repr, DecidableEq

def GetDeviceErrors.OPCODE : Nat := 0x17

def GetDeviceErrors.new : GetDeviceErrors where
  tx_buf := [GetDeviceErrors.OPCODE, 0, 0, 0]
  rx_buf := List.replicate 4 0

def GetDeviceErrors.descriptor (c : GetDeviceErrors) : SpiDescriptor :=
  ⟨c.tx_buf, c.rx_buf, 4⟩

def GetDeviceErrors.op_error (c : GetDeviceErrors) : OpError :=
  OpError.from_bits ((c.rx_buf.getD 2 0 <<< 8) ||| c.rx_buf.getD 3 0)

structure ClearDeviceErrors where
  tx_buf : List Nat
  rx_buf : List Nat
  deriving Repr, DecidableEq

def ClearDeviceErrors.OPCODE : Nat := 0x07

def ClearDeviceErrors.new : ClearDeviceErrors where
  tx_buf := [ClearDeviceErrors.OPCODE, 0, 0]
  rx_buf := List.replicate 3 0

def ClearDeviceErrors.descriptor (c : ClearDeviceErrors) : SpiDescriptor :=
  ⟨c.tx_buf, c.rx_buf, 3⟩

/-! ## Encoders built from the source builder chains

Each `encode` is the new().with_x(..)... chain a caller uses to pack one
value per declared sub-field, in field declaration order. -/

def SleepConfig.encode (warm_start : Bool) : SleepConfig :=
  SleepConfig.new.with_warm_start warm_start

def CalibrationSetting.encode (rc64k rc13m pll adc_pulse adc_bulk_n adc_bulk_p image : Bool) :
    CalibrationSetting :=
  ((((((CalibrationSetting.new.with_rc64k rc64k).with_rc13m rc13m).with_pll
    pll).with_adc_pulse adc_pulse).with_adc_bulk_n adc_bulk_n).with_adc_bulk_p
    adc_bulk_p).with_image image

def Irq.encode (tx_done rx_done preamble_detected sync_word_valid header_valid header_err
    crc_err cad_done cad_detected timeout lr_fhss_hop : Bool) : Irq :=
  ((((((((((Irq.new.with_tx_done tx_done).with_rx_done rx_done).with_preamble_detected
    preamble_detected).with_sync_word_valid sync_word_valid).with_header_valid
    header_valid).with_header_err header_err).with_crc_err crc_err).with_cad_done
    cad_done).with_cad_detected cad_detected).with_timeout timeout).with_lr_fhss_hop lr_fhss_hop

def Status.encode (chip_mode : ChipMode) (command_status : CommandStatus) : Status :=
  (Status.new.with_chip_mode chip_mode).with_command_status command_status

def OpError.encode (rc64k_calib_err rc13m_calib_err pll_calib_err adc_calib_err img_calib_err
    xosc_start_err pll_lock_err pa_ramp_err : Bool) : OpError :=
  (((((((OpError.new.with_rc64k_calib_err rc64k_calib_err).with_rc13m_calib_err
    rc13m_calib_err).with_pll_calib_err pll_calib_err).with_adc_calib_err
    adc_calib_err).with_img_calib_err img_calib_err).with_xosc_start_err
    xosc_start_err).with_pll_lock_err pll_lock_err).with_pa_ramp_err pa_ramp_err

/-! ## Helper lemmas on single-bit reads under a constant mask -/

theorem shift_and_one (x k : Nat) : (x >>> k) &&& 1 = if x.testBit k then 1 else 0 := by
  simp only [Nat.testBit_to_div_mod, Nat.and_one_is_mod, Nat.shiftRight_eq_div_pow]
  rcases Nat.mod_two_eq_zero_or_one (x / 2 ^ k) with h | h <;> simp [h]

theorem masked_bit (M k : Nat) (h : M.testBit k = true) (x : Nat) :
    ((x &&& M) >>> k) &&& 1 = (x >>> k) &&& 1 := by
  rw [shift_and_one, shift_and_one, Nat.testBit_and, h, Bool.and_true]

theorem bitGetEq (M k x : Nat) (h : M.testBit k = true) :
    ((((x &&& M) >>> k) &&& 1) == 1) = (((x >>> k) &&& 1) == 1) := by
  rw [masked_bit M k h]

/-! ## Descriptor length of the four const-generic commands -/

theorem WriteBuffer.writeBuffer_transfer_length_mod {n : Nat} (w : WriteBuffer n) :
    w.descriptor.transfer_length = w.rx_buf.length % 65536 := by
  simp only [WriteBuffer.descriptor]
  rw [w.hrx]

theorem WriteBuffer.writeBuffer_transfer_length_of_lt {n : Nat} (w : WriteBuffer n) (h : n < 65536) :
    w.descriptor.transfer_length = w.rx_buf.length := by
  simp only [WriteBuffer.descriptor]
  rw [w.hrx, Nat.mod_eq_of_lt h]

theorem ReadBuffer.readBuffer_transfer_length_mod {n : Nat} (w : ReadBuffer n) :
    w.descriptor.transfer_length = w.rx_buf.length % 65536 := by
  simp only [ReadBuffer.descriptor]
  rw [w.hrx]

theorem ReadBuffer.readBuffer_transfer_length_of_lt {n : Nat} (w : ReadBuffer n) (h : n < 65536) :
    w.descriptor.transfer_length = w.rx_buf.length := by
  simp only [ReadBuffer.descriptor]
  rw [w.hrx, Nat.mod_eq_of_lt h]

theorem WriteRegisters.writeRegisters_transfer_length_mod {n : Nat} (w : WriteRegisters n) :
    w.descriptor.transfer_length = w.rx_buf.length % 65536 := by
  simp only [WriteRegisters.descriptor]
  rw [w.hrx]

theorem WriteRegisters.writeRegisters_transfer_length_of_lt {n : Nat} (w : WriteRegisters n) (h : n < 65536) :
    w.descriptor.transfer_length = w.rx_buf.length := by
  simp only [WriteRegisters.descriptor]
  rw [w.hrx, Nat.mod_eq_of_lt h]

theorem ReadRegisters.readRegisters_transfer_length_mod {n : Nat} (w : ReadRegisters n) :
    w.descriptor.transfer_length = w.rx_buf.length % 65536 := by
  simp only [ReadRegisters.descriptor]
  rw [w.hrx]

theorem ReadRegisters.readRegisters_transfer_length_of_lt {n : Nat} (w : ReadRegisters n) (h : n < 65536) :
    w.descriptor.transfer_length = w.rx_buf.length := by
  simp only [ReadRegisters.descriptor]
  rw [w.hrx, Nat.mod_eq_of_lt h]

/-! ## The claims -/

/-- Claim C2: for every bitfield type of the commands (SleepConfig,
CalibrationSetting, Irq, Status, OpError) and every representable
combination of declared sub-field values, reading the accessors back from
the encoded raw integer returns exactly the original sub-field values;
the reserved bit spans of the encoded integer are zero, and the decoding
accessors ignore the reserved bits of an arbitrary raw integer. -/
theorem claim_C2_bitfield_roundtrip :
    (∀ ws : Bool,
      (SleepConfig.from_bits (SleepConfig.encode ws).into_bits).warm_start = ws ∧
      (SleepConfig.encode ws).into_bits &&& 0xFB = 0) ∧
    (∀ raw : Fin 256,
      (SleepConfig.from_bits (raw.val &&& 0x04)).warm_start =
        (SleepConfig.from_bits raw.val).warm_start) ∧
    (∀ b1 b2 b3 b4 b5 b6 b7 : Bool,
      (CalibrationSetting.from_bits (CalibrationSetting.encode b1 b2 b3 b4 b5 b6 b7).into_bits).rc64k = b1 ∧
      (CalibrationSetting.from_bits (CalibrationSetting.encode b1 b2 b3 b4 b5 b6 b7).into_bits).rc13m = b2 ∧
      (CalibrationSetting.from_bits (CalibrationSetting.encode b1 b2 b3 b4 b5 b6 b7).into_bits).pll = b3 ∧
      (CalibrationSetting.from_bits (CalibrationSetting.encode b1 b2 b3 b4 b5 b6 b7).into_bits).adc_pulse = b4 ∧
      (CalibrationSetting.from_bits (CalibrationSetting.encode b1 b2 b3 b4 b5 b6 b7).into_bits).adc_bulk_n = b5 ∧
      (CalibrationSetting.from_bits (CalibrationSetting.encode b1 b2 b3 b4 b5 b6 b7).into_bits).adc_bulk_p = b6 ∧
      (CalibrationSetting.from_bits (CalibrationSetting.encode b1 b2 b3 b4 b5 b6 b7).into_bits).image = b7 ∧
      (CalibrationSetting.encode b1 b2 b3 b4 b5 b6 b7).into_bits &&& 0x80 = 0) ∧
    (∀ raw : Fin 256,
      (CalibrationSetting.from_bits (raw.val &&& 0x7F)).rc64k =
        (CalibrationSetting.from_bits raw.val).rc64k ∧
      (CalibrationSetting.from_bits (raw.val &&& 0x7F)).rc13m =
        (CalibrationSetting.from_bits raw.val).rc13m ∧
      (CalibrationSetting.from_bits (raw.val &&& 0x7F)).pll =
        (CalibrationSetting.from_bits raw.val).pll ∧
      (CalibrationSetting.from_bits (raw.val &&& 0x7F)).adc_pulse =
        (CalibrationSetting.from_bits raw.val).adc_pulse ∧
      (CalibrationSetting.from_bits (raw.val &&& 0x7F)).adc_bulk_n =
        (CalibrationSetting.from_bits raw.val).adc_bulk_n ∧
      (CalibrationSetting.from_bits (raw.val &&& 0x7F)).adc_bulk_p =
        (CalibrationSetting.from_bits raw.val).adc_bulk_p ∧
      (CalibrationSetting.from_bits (raw.val &&& 0x7F)).image =
        (CalibrationSetting.from_bits raw.val).image) ∧
    (∀ b1 b2 b3 b4 b5 b6 b7 b8 b9 b10 b11 : Bool,
      (Irq.from_bits (Irq.encode b1 b2 b3 b4 b5 b6 b7 b8 b9 b10 b11).into_bits).tx_done = b1 ∧
      (Irq.from_bits (Irq.encode b1 b2 b3 b4 b5 b6 b7 b8 b9 b10 b11).into_bits).rx_done = b2 ∧
      (Irq.from_bits (Irq.encode b1 b2 b3 b4 b5 b6 b7 b8 b9 b10 b11).into_bits).preamble_detected = b3 ∧
      (Irq.from_bits (Irq.encode b1 b2 b3 b4 b5 b6 b7 b8 b9 b10 b11).into_bits).sync_word_valid = b4 ∧
      (Irq.from_bits (Irq.encode b1 b2 b3 b4 b5 b6 b7 b8 b9 b10 b11).into_bits).header_valid = b5 ∧
      (Irq.from_bits (Irq.encode b1 b2 b3 b4 b5 b6 b7 b8 b9 b10 b11).into_bits).header_err = b6 ∧
      (Irq.from_bits (Irq.encode b1 b2 b3 b4 b5 b6 b7 b8 b9 b10 b11).into_bits).crc_err = b7 ∧
      (Irq.from_bits (Irq.encode b1 b2 b3 b4 b5 b6 b7 b8 b9 b10 b11).into_bits).cad_done = b8 ∧
      (Irq.from_bits (Irq.encode b1 b2 b3 b4 b5 b6 b7 b8 b9 b10 b11).into_bits).cad_detected = b9 ∧
      (Irq.from_bits (Irq.encode b1 b2 b3 b4 b5 b6 b7 b8 b9 b10 b11).into_bits).timeout = b10 ∧
      (Irq.from_bits (Irq.encode b1 b2 b3 b4 b5 b6 b7 b8 b9 b10 b11).into_bits).lr_fhss_hop = b11 ∧
      (Irq.encode b1 b2 b3 b4 b5 b6 b7 b8 b9 b10 b11).into_bits &&& 0xBC00 = 0) ∧
    (∀ raw : Nat,
      (Irq.from_bits (raw &&& 0x43FF)).tx_done = (Irq.from_bits raw).tx_done ∧
      (Irq.from_bits (raw &&& 0x43FF)).rx_done = (Irq.from_bits raw).rx_done ∧
      (Irq.from_bits (raw &&& 0x43FF)).preamble_detected = (Irq.from_bits raw).preamble_detected ∧
      (Irq.from_bits (raw &&& 0x43FF)).sync_word_valid = (Irq.from_bits raw).sync_word_valid ∧
      (Irq.from_bits (raw &&& 0x43FF)).header_valid = (Irq.from_bits raw).header_valid ∧
      (Irq.from_bits (raw &&& 0x43FF)).header_err = (Irq.from_bits raw).header_err ∧
      (Irq.from_bits (raw &&& 0x43FF)).crc_err = (Irq.from_bits raw).crc_err ∧
      (Irq.from_bits (raw &&& 0x43FF)).cad_done = (Irq.from_bits raw).cad_done ∧
      (Irq.from_bits (raw &&& 0x43FF)).cad_detected = (Irq.from_bits raw).cad_detected ∧
      (Irq.from_bits (raw &&& 0x43FF)).timeout = (Irq.from_bits raw).timeout ∧
      (Irq.from_bits (raw &&& 0x43FF)).lr_fhss_hop = (Irq.from_bits raw).lr_fhss_hop) ∧
    (∀ m : ChipMode, ∀ cs : CommandStatus,
      (Status.from_bits (Status.encode m cs).into_bits).chip_mode = some m ∧
      (Status.from_bits (Status.encode m cs).into_bits).command_status = some cs ∧
      (Status.encode m cs).into_bits &&& 0x81 = 0) ∧
    (∀ raw : Fin 256,
      (Status.from_bits (raw.val &&& 0x7E)).chip_mode = (Status.from_bits raw.val).chip_mode ∧
      (Status.from_bits (raw.val &&& 0x7E)).command_status =
        (Status.from_bits raw.val).command_status) ∧
    (∀ b1 b2 b3 b4 b5 b6 b7 b8 : Bool,
      (OpError.from_bits (OpError.encode b1 b2 b3 b4 b5 b6 b7 b8).into_bits).rc64k_calib_err = b1 ∧
      (OpError.from_bits (OpError.encode b1 b2 b3 b4 b5 b6 b7 b8).into_bits).rc13m_calib_err = b2 ∧
      (OpError.from_bits (OpError.encode b1 b2 b3 b4 b5 b6 b7 b8).into_bits).pll_calib_err = b3 ∧
      (OpError.from_bits (OpError.encode b1 b2 b3 b4 b5 b6 b7 b8).into_bits).adc_calib_err = b4 ∧
      (OpError.from_bits (OpError.encode b1 b2 b3 b4 b5 b6 b7 b8).into_bits).img_calib_err = b5 ∧
      (OpError.from_bits (OpError.encode b1 b2 b3 b4 b5 b6 b7 b8).into_bits).xosc_start_err = b6 ∧
      (OpError.from_bits (OpError.encode b1 b2 b3 b4 b5 b6 b7 b8).into_bits).pll_lock_err = b7 ∧
      (OpError.from_bits (OpError.encode b1 b2 b3 b4 b5 b6 b7 b8).into_bits).pa_ramp_err = b8 ∧
      (OpError.encode b1 b2 b3 b4 b5 b6 b7 b8).into_bits &&& 0xFE80 = 0) ∧
    (∀ raw : Nat,
      (OpError.from_bits (raw &&& 0x017F)).rc64k_calib_err = (OpError.from_bits raw).rc64k_calib_err ∧
      (OpError.from_bits (raw &&& 0x017F)).rc13m_calib_err = (OpError.from_bits raw).rc13m_calib_err ∧
      (OpError.from_bits (raw &&& 0x017F)).pll_calib_err = (OpError.from_bits raw).pll_calib_err ∧
      (OpError.from_bits (raw &&& 0x017F)).adc_calib_err = (OpError.from_bits raw).adc_calib_err ∧
      (OpError.from_bits (raw &&& 0x017F)).img_calib_err = (OpError.from_bits raw).img_calib_err ∧
      (OpError.from_bits (raw &&& 0x017F)).xosc_start_err = (OpError.from_bits raw).xosc_start_err ∧
      (OpError.from_bits (raw &&& 0x017F)).pll_lock_err = (OpError.from_bits raw).pll_lock_err ∧
      (OpError.from_bits (raw &&& 0x017F)).pa_ramp_err = (OpError.from_bits raw).pa_ramp_err) := by
  refine ⟨by decide, by decide, by decide, by decide, by decide, ?_, ?_, by decide, by decide, ?_⟩
  · intro raw
    exact ⟨bitGetEq 0x43FF 0 raw (by decide), bitGetEq 0x43FF 1 raw (by decide),
      bitGetEq 0x43FF 2 raw (by decide), bitGetEq 0x43FF 3 raw (by decide),
      bitGetEq 0x43FF 4 raw (by decide), bitGetEq 0x43FF 5 raw (by decide),
      bitGetEq 0x43FF 6 raw (by decide), bitGetEq 0x43FF 7 raw (by decide),
      bitGetEq 0x43FF 8 raw (by decide), bitGetEq 0x43FF 9 raw (by decide),
      bitGetEq 0x43FF 14 raw (by decide)⟩
  · intro m cs
    cases m <;> cases cs <;> decide
  · intro raw
    exact ⟨bitGetEq 0x017F 0 raw (by decide), bitGetEq 0x017F 1 raw (by decide),
      bitGetEq 0x017F 2 raw (by decide), bitGetEq 0x017F 3 raw (by decide),
      bitGetEq 0x017F 4 raw (by decide), bitGetEq 0x017F 5 raw (by decide),
      bitGetEq 0x017F 6 raw (by decide), bitGetEq 0x017F 8 raw (by decide)⟩

/-- Claim C3: the signed-measurement accessors implement the two division
conventions of the source exactly.  For every byte, the three divide-by-2
fields (GetRssiInst::rssi_inst, GetPacketStatusLora::rssi_pkt and
GetPacketStatusLora::signal_rssi_pkt) return the negation of the unsigned
byte halved, and the divide-by-4 field (GetPacketStatusLora::snr_pkt)
interprets the byte as signed and divides truncating toward zero; raw 184
decodes to -92 on the former, raw 0b11111100 decodes to -1 on the latter. -/
theorem claim_C3_signed_measurement_decode :
    (∀ b : Fin 256,
      ({ GetRssiInst.new with
          rx_buf := (GetRssiInst.new).rx_buf.set 2 b.val }).rssi_inst =
        -((b.val / 2 : Nat) : Int) ∧
      ({ GetPacketStatusLora.new with
          rx_buf := (GetPacketStatusLora.new).rx_buf.set 2 b.val }).rssi_pkt =
        -((b.val / 2 : Nat) : Int) ∧
      ({ GetPacketStatusLora.new with
          rx_buf := (GetPacketStatusLora.new).rx_buf.set 4 b.val }).signal_rssi_pkt =
        -((b.val / 2 : Nat) : Int) ∧
      ({ GetPacketStatusLora.new with
          rx_buf := (GetPacketStatusLora.new).rx_buf.set 3 b.val }).snr_pkt =
        Int.tdiv (if b.val < 128 then (b.val : Int) else (b.val : Int) - 256) 4) ∧
    ({ GetRssiInst.new with
        rx_buf := (GetRssiInst.new).rx_buf.set 2 184 }).rssi_inst = -92 ∧
    ({ GetPacketStatusLora.new with
        rx_buf := (GetPacketStatusLora.new).rx_buf.set 2 184 }).rssi_pkt = -92 ∧
    ({ GetPacketStatusLora.new with
        rx_buf := (GetPacketStatusLora.new).rx_buf.set 4 184 }).signal_rssi_pkt = -92 ∧
    ({ GetPacketStatusLora.new with
        rx_buf := (GetPacketStatusLora.new).rx_buf.set 3 0b11111100 }).snr_pkt = -1 ∧
    ({ GetPacketStatusLora.new with
        rx_buf := (GetPacketStatusLora.new).rx_buf.set 3 0xFF }).snr_pkt = 0 := by
  refine ⟨by decide, by decide, by decide, by decide, by decide, by decide⟩

/-- Claim C6: the enumeration decoders are total over the byte domain.
PacketType::from, ChipMode::from_bits and CommandStatus::from_bits land in
a defined variant for every byte (their masked transmute never misses),
the Status and GetPacketType accessors inherit that totality, and
RxGainSetting::from maps every code outside the two defined ones to the
enumerated Unknown tag instead of an error. -/
theorem claim_C6_decoder_totality :
    ∀ b : Fin 256,
      (PacketType.from_raw b.val).isSome = true ∧
      (ChipMode.from_bits b.val).isSome = true ∧
      (CommandStatus.from_bits b.val).isSome = true ∧
      (Status.from_bits b.val).chip_mode.isSome = true ∧
      (Status.from_bits b.val).command_status.isSome = true ∧
      (({ GetPacketType.new with
          rx_buf := (GetPacketType.new).rx_buf.set 2 b.val }).packet_type).isSome = true ∧
      (b.val ≠ 0x94 → b.val ≠ 0x96 → RxGainSetting.from_raw b.val = RxGainSetting.Unknown) ∧
      RxGainSetting.from_raw 0x94 = RxGainSetting.PowerSaving ∧
      RxGainSetting.from_raw 0x96 = RxGainSetting.Boosted := by
  decide

/-- Claim C7 counterexample: re-encoding the decode of byte 0x95 through
the RxGain register codec yields 0x00 (the Unknown discriminant), not
0x95, so decode-then-encode is not the identity on all byte values for
every register type in the catalog. -/
theorem claim_C7_counterexample :
    Register.bits (Register.from_bits 0x95 : RxGain) ≠ 0x95 ∧
    Register.bits (Register.from_bits 0x95 : RxGain) = 0 := by
  refine ⟨by decide, by decide⟩

/-- Claim C7 amended: for the six registers whose value is the raw byte
(LoraSyncWordMsb, LoraSyncWordLsb, RandomNumberGen0, RxGainRetention0/1/2)
decode-then-encode returns every byte unchanged.  For RxGain the
value-level round trip from_bits(bits(r)) == r holds for every register
value, and decode-then-encode returns the byte unchanged exactly on the
defined codes 0x00, 0x94 and 0x96, every other byte re-encoding to 0x00. -/
theorem claim_C7_amended_register_roundtrip :
    (∀ v : Fin 256, Register.bits (Register.from_bits v.val : LoraSyncWordMsb) = v.val) ∧
    (∀ v : Fin 256, Register.bits (Register.from_bits v.val : LoraSyncWordLsb) = v.val) ∧
    (∀ v : Fin 256, Register.bits (Register.from_bits v.val : RandomNumberGen0) = v.val) ∧
    (∀ v : Fin 256, Register.bits (Register.from_bits v.val : RxGainRetention0) = v.val) ∧
    (∀ v : Fin 256, Register.bits (Register.from_bits v.val : RxGainRetention1) = v.val) ∧
    (∀ v : Fin 256, Register.bits (Register.from_bits v.val : RxGainRetention2) = v.val) ∧
    (∀ s : RxGainSetting,
      (Register.from_bits (Register.bits (⟨s⟩ : RxGain)) : RxGain) = ⟨s⟩) ∧
    (∀ v : Fin 256, v.val ≠ 0x94 → v.val ≠ 0x96 →
      Register.bits (Register.from_bits v.val : RxGain) = 0) ∧
    Register.bits (Register.from_bits 0x00 : RxGain) = 0x00 ∧
    Register.bits (Register.from_bits 0x94 : RxGain) = 0x94 ∧
    Register.bits (Register.from_bits 0x96 : RxGain) = 0x96 := by
  refine ⟨by decide, by decide, by decide, by decide, by decide, by decide, ?_, by decide,
    by decide, by decide, by decide⟩
  intro s
  cases s <;> decide

/-- Claim C8: the read-register command for LoraSyncWordLsb (address
0x0741) builds the transmit buffer [0x1D, 0x07, 0x41, 0x00, 0x00], and
after the transport writes 0x86 into the last receive byte the register
accessor decodes it to the typed value 0x86 through the register codec. -/
theorem claim_C8_read_register_end_to_end :
    Register.ADDRESS LoraSyncWordLsb = 0x0741 ∧
    (ReadRegister.new LoraSyncWordLsb).tx_buf = [0x1D, 0x07, 0x41, 0x00, 0x00] ∧
    (ReadRegister.new LoraSyncWordLsb).descriptor.transfer_length = 5 ∧
    ({ ReadRegister.new LoraSyncWordLsb with
        rx_buf := (ReadRegister.new LoraSyncWordLsb).rx_buf.set 4 0x86 }).register =
      (⟨0x86⟩ : LoraSyncWordLsb) := by
  refine ⟨by decide, by decide, by decide, by decide⟩

/-- Claim C10: GetPacketType::packet_type returns the PacketType variant
whose discriminant is the third receive byte masked to its low two bits;
byte 0x05 decodes to Lora, and the decode is Reserved exactly when the
masked bits are 0x02. -/
theorem claim_C10_packet_type_decode :
    ∀ b : Fin 256,
      (({ GetPacketType.new with
          rx_buf := (GetPacketType.new).rx_buf.set 2 b.val }).packet_type).map PacketType.toByte =
        some (b.val &&& 0x03) ∧
      ({ GetPacketType.new with
          rx_buf := (GetPacketType.new).rx_buf.set 2 0x05 }).packet_type = some PacketType.Lora ∧
      (({ GetPacketType.new with
          rx_buf := (GetPacketType.new).rx_buf.set 2 b.val }).packet_type =
            some PacketType.Reserved ↔ b.val &&& 0x03 = 2) := by
  decide

/-- Claim C4 counterexample: no WriteBuffer value of capacity 7 reports a
transfer length of 5 — the descriptor length is the constant capacity, so
the shrink the claim describes (set_data_length(3) making
descriptor().transfer_length equal 5) is impossible; no such operation
exists in the code. -/
theorem claim_C4_counterexample :
    ¬ ∃ w : WriteBuffer 7, w.descriptor.transfer_length = 5 := by
  rintro ⟨w, h⟩
  simp [WriteBuffer.descriptor] at h

/-- Claim C4 amended: the buffer-transfer commands expose no
runtime-mutable effective length — the code has no set_data_length and
descriptor().transfer_length is always the compile-time capacity N taken
as u16.  A WriteBuffer of capacity 7 built with 5 payload bytes reports
transfer length 7, stores exactly the 5 constructor bytes after the
opcode and offset, and keeps both under any receive-buffer write; every
WriteBuffer 7 state reports 7, never 5. -/
theorem claim_C4_amended_constant_transfer_length :
    (∀ o b1 b2 b3 b4 b5 : Nat,
      (WriteBuffer.new o [b1, b2, b3, b4, b5]).descriptor.transfer_length = 7 ∧
      (WriteBuffer.new o [b1, b2, b3, b4, b5]).tx_buf = [0x0E, o, b1, b2, b3, b4, b5] ∧
      ∀ i b : Nat,
        ((WriteBuffer.new o [b1, b2, b3, b4, b5]).writeRx i b).descriptor.transfer_length = 7 ∧
        ((WriteBuffer.new o [b1, b2, b3, b4, b5]).writeRx i b).tx_buf =
          [0x0E, o, b1, b2, b3, b4, b5]) ∧
    (∀ w : WriteBuffer 7, w.descriptor.transfer_length = 7) ∧
    (∀ n : Nat, ∀ w : WriteBuffer n, w.descriptor.transfer_length = n % 65536) ∧
    (∀ n : Nat, ∀ r : ReadBuffer n, r.descriptor.transfer_length = n % 65536) := by
  exact ⟨fun o b1 b2 b3 b4 b5 => ⟨rfl, rfl, fun i b => ⟨rfl, rfl⟩⟩,
    fun w => rfl, fun n w => rfl, fun n r => rfl⟩

/-- Claim C5 counterexample: a WriteBuffer whose capacity exceeds the u16
range breaks the equality between the reported transfer length and the
receive-buffer length — at capacity 65538 the descriptor reports
65538 mod 2^16 = 2 while the receive buffer holds 65538 bytes. -/
theorem claim_C5_counterexample :
    (WriteBuffer.new 0 (List.replicate 65536 0)).descriptor.transfer_length = 2 ∧
    (WriteBuffer.new 0 (List.replicate 65536 0)).rx_buf.length = 65538 := by
  refine ⟨?_, ?_⟩
  · simp only [WriteBuffer.descriptor, List.length_replicate]
  · rw [WriteBuffer.hrx]
    simp only [List.length_replicate]

/-- Claim C1: every constructor of the command catalog writes the
documented opcode constant as the first transmit byte (0x84 for
SetSleep, 0x0D for WriteRegister and WriteRegisters, 0x1D for
ReadRegister and ReadRegisters, 0x0E for WriteBuffer, 0x1E for
ReadBuffer, and so on), and no later state change of the command value
(in particular any write into the receive buffer) moves that byte. -/
theorem claim_C1_tx_opcode_invariant :
    (∀ (ws : Bool), (SetSleep.new ws).tx_buf.head? = some 0x84) ∧
    (∀ (ws : Bool) (rx : List Nat), ({ SetSleep.new ws with rx_buf := rx }).tx_buf.head? = some 0x84) ∧
    (∀ (sc : StdbyConfig), (SetStandby.new sc).tx_buf.head? = some 0x80) ∧
    (∀ (sc : StdbyConfig) (rx : List Nat), ({ SetStandby.new sc with rx_buf := rx }).tx_buf.head? = some 0x80) ∧
    ((SetFs.new).tx_buf.head? = some 0xC1) ∧
    (∀ (rx : List Nat), ({ SetFs.new with rx_buf := rx }).tx_buf.head? = some 0xC1) ∧
    (∀ (t : Nat), (SetTx.new t).tx_buf.head? = some 0x83) ∧
    (∀ (t : Nat) (rx : List Nat), ({ SetTx.new t with rx_buf := rx }).tx_buf.head? = some 0x83) ∧
    (∀ (t : Nat), (SetRx.new t).tx_buf.head? = some 0x82) ∧
    (∀ (t : Nat) (rx : List Nat), ({ SetRx.new t with rx_buf := rx }).tx_buf.head? = some 0x82) ∧
    (∀ (sp : Bool), (StopTimerOnPreamble.new sp).tx_buf.head? = some 0x9F) ∧
    (∀ (sp : Bool) (rx : List Nat), ({ StopTimerOnPreamble.new sp with rx_buf := rx }).tx_buf.head? = some 0x9F) ∧
    (∀ (rp slp : Nat), (SetRxDutyCycle.new rp slp).tx_buf.head? = some 0x94) ∧
    (∀ (rp slp : Nat) (rx : List Nat), ({ SetRxDutyCycle.new rp slp with rx_buf := rx }).tx_buf.head? = some 0x94) ∧
    ((SetCad.new).tx_buf.head? = some 0xC5) ∧
    (∀ (rx : List Nat), ({ SetCad.new with rx_buf := rx }).tx_buf.head? = some 0xC5) ∧
    ((SetTxContinuousWave.new).tx_buf.head? = some 0xD1) ∧
    (∀ (rx : List Nat), ({ SetTxContinuousWave.new with rx_buf := rx }).tx_buf.head? = some 0xD1) ∧
    ((SetTxInfinitePreamble.new).tx_buf.head? = some 0xD2) ∧
    (∀ (rx : List Nat), ({ SetTxInfinitePreamble.new with rx_buf := rx }).tx_buf.head? = some 0xD2) ∧
    (∀ (dc : Bool), (SetRegulatorMode.new dc).tx_buf.head? = some 0x96) ∧
    (∀ (dc : Bool) (rx : List Nat), ({ SetRegulatorMode.new dc with rx_buf := rx }).tx_buf.head? = some 0x96) ∧
    (∀ (cp : CalibrationSetting), (Calibrate.new cp).tx_buf.head? = some 0x89) ∧
    (∀ (cp : CalibrationSetting) (rx : List Nat), ({ Calibrate.new cp with rx_buf := rx }).tx_buf.head? = some 0x89) ∧
    (∀ (f1 f2 : Nat), (CalibrateImage.new f1 f2).tx_buf.head? = some 0x98) ∧
    (∀ (f1 f2 : Nat) (rx : List Nat), ({ CalibrateImage.new f1 f2 with rx_buf := rx }).tx_buf.head? = some 0x98) ∧
    (∀ (pd hm ds : Nat), (SetPaConfig.new pd hm ds).tx_buf.head? = some 0x95) ∧
    (∀ (pd hm ds : Nat) (rx : List Nat), ({ SetPaConfig.new pd hm ds with rx_buf := rx }).tx_buf.head? = some 0x95) ∧
    (∀ (fm : FallbackMode), (SetRxTxFallbackMode.new fm).tx_buf.head? = some 0x93) ∧
    (∀ (fm : FallbackMode) (rx : List Nat), ({ SetRxTxFallbackMode.new fm with rx_buf := rx }).tx_buf.head? = some 0x93) ∧
    (∀ (R : Type) [Register R] (r : R), (WriteRegister.new R r).tx_buf.head? = some 0x0D) ∧
    (∀ (R : Type) [Register R] (r : R) (rx : List Nat), ({ WriteRegister.new R r with rx_buf := rx }).tx_buf.head? = some 0x0D) ∧
    (∀ (R : Type) [Register R], (ReadRegister.new R).tx_buf.head? = some 0x1D) ∧
    (∀ (R : Type) [Register R] (rx : List Nat), (({ ReadRegister.new R with rx_buf := rx } : ReadRegister R)).tx_buf.head? = some 0x1D) ∧
    (∀ (m1 m2 m3 m4 : Irq), (SetDioIrqParams.new m1 m2 m3 m4).tx_buf.head? = some 0x08) ∧
    (∀ (m1 m2 m3 m4 : Irq) (rx : List Nat), ({ SetDioIrqParams.new m1 m2 m3 m4 with rx_buf := rx }).tx_buf.head? = some 0x08) ∧
    ((GetIrqStatus.new).tx_buf.head? = some 0x12) ∧
    (∀ (rx : List Nat), ({ GetIrqStatus.new with rx_buf := rx }).tx_buf.head? = some 0x12) ∧
    (∀ (cp : Irq), (ClearIrqStatus.new cp).tx_buf.head? = some 0x02) ∧
    (∀ (cp : Irq) (rx : List Nat), ({ ClearIrqStatus.new cp with rx_buf := rx }).tx_buf.head? = some 0x02) ∧
    (∀ (en : Bool), (SetDio2AsRfSwitchCtrl.new en).tx_buf.head? = some 0x9D) ∧
    (∀ (en : Bool) (rx : List Nat), ({ SetDio2AsRfSwitchCtrl.new en with rx_buf := rx }).tx_buf.head? = some 0x9D) ∧
    (∀ (tv : TcxoVoltage) (d : Nat), (SetDio3AsTcxoCtrl.new tv d).tx_buf.head? = some 0x97) ∧
    (∀ (tv : TcxoVoltage) (d : Nat) (rx : List Nat), ({ SetDio3AsTcxoCtrl.new tv d with rx_buf := rx }).tx_buf.head? = some 0x97) ∧
    (∀ (f : Nat), (SetRfFrequency.new f).tx_buf.head? = some 0x86) ∧
    (∀ (f : Nat) (rx : List Nat), ({ SetRfFrequency.new f with rx_buf := rx }).tx_buf.head? = some 0x86) ∧
    (∀ (pt : PacketType), (SetPacketType.new pt).tx_buf.head? = some 0x8A) ∧
    (∀ (pt : PacketType) (rx : List Nat), ({ SetPacketType.new pt with rx_buf := rx }).tx_buf.head? = some 0x8A) ∧
    ((GetPacketType.new).tx_buf.head? = some 0x11) ∧
    (∀ (rx : List Nat), ({ GetPacketType.new with rx_buf := rx }).tx_buf.head? = some 0x11) ∧
    (∀ (pw : Nat) (rt : RampTime), (SetTxParams.new pw rt).tx_buf.head? = some 0x8E) ∧
    (∀ (pw : Nat) (rt : RampTime) (rx : List Nat), ({ SetTxParams.new pw rt with rx_buf := rx }).tx_buf.head? = some 0x8E) ∧
    (∀ (sf : Sf) (bw : Bw) (cr : Cr) (ld : Bool), (SetModulationParamsLora.new sf bw cr ld).tx_buf.head? = some 0x8B) ∧
    (∀ (sf : Sf) (bw : Bw) (cr : Cr) (ld : Bool) (rx : List Nat), ({ SetModulationParamsLora.new sf bw cr ld with rx_buf := rx }).tx_buf.head? = some 0x8B) ∧
    (∀ (prl : Nat) (ht : HeaderType) (pyl : Nat) (ct : Bool) (iq : InvertIq), (SetPacketParams.new prl ht pyl ct iq).tx_buf.head? = some 0x8C) ∧
    (∀ (prl : Nat) (ht : HeaderType) (pyl : Nat) (ct : Bool) (iq : InvertIq) (rx : List Nat), ({ SetPacketParams.new prl ht pyl ct iq with rx_buf := rx }).tx_buf.head? = some 0x8C) ∧
    (∀ (sn : CadSymbolNum) (dp dm : Nat) (em : CadExitMode) (t : Nat), (SetCadParams.new sn dp dm em t).tx_buf.head? = some 0x88) ∧
    (∀ (sn : CadSymbolNum) (dp dm : Nat) (em : CadExitMode) (t : Nat) (rx : List Nat), ({ SetCadParams.new sn dp dm em t with rx_buf := rx }).tx_buf.head? = some 0x88) ∧
    (∀ (tb rb : Nat), (SetBufferBaseAddress.new tb rb).tx_buf.head? = some 0x8F) ∧
    (∀ (tb rb : Nat) (rx : List Nat), ({ SetBufferBaseAddress.new tb rb with rx_buf := rx }).tx_buf.head? = some 0x8F) ∧
    (∀ (sn : Nat), (SetLoraSymbNumTimeout.new sn).tx_buf.head? = some 0xA0) ∧
    (∀ (sn : Nat) (rx : List Nat), ({ SetLoraSymbNumTimeout.new sn with rx_buf := rx }).tx_buf.head? = some 0xA0) ∧
    ((GetStatus.new).tx_buf.head? = some 0xC0) ∧
    (∀ (rx : List Nat), ({ GetStatus.new with rx_buf := rx }).tx_buf.head? = some 0xC0) ∧
    ((GetRssiInst.new).tx_buf.head? = some 0x15) ∧
    (∀ (rx : List Nat), ({ GetRssiInst.new with rx_buf := rx }).tx_buf.head? = some 0x15) ∧
    ((GetRxBufferStatus.new).tx_buf.head? = some 0x13) ∧
    (∀ (rx : List Nat), ({ GetRxBufferStatus.new with rx_buf := rx }).tx_buf.head? = some 0x13) ∧
    ((GetPacketStatusLora.new).tx_buf.head? = some 0x14) ∧
    (∀ (rx : List Nat), ({ GetPacketStatusLora.new with rx_buf := rx }).tx_buf.head? = some 0x14) ∧
    ((GetStatsLora.new).tx_buf.head? = some 0x10) ∧
    (∀ (rx : List Nat), ({ GetStatsLora.new with rx_buf := rx }).tx_buf.head? = some 0x10) ∧
    ((ResetStats.new).tx_buf.head? = some 0x00) ∧
    (∀ (rx : List Nat), ({ ResetStats.new with rx_buf := rx }).tx_buf.head? = some 0x00) ∧
    ((GetDeviceErrors.new).tx_buf.head? = some 0x17) ∧
    (∀ (rx : List Nat), ({ GetDeviceErrors.new with rx_buf := rx }).tx_buf.head? = some 0x17) ∧
    ((ClearDeviceErrors.new).tx_buf.head? = some 0x07) ∧
    (∀ (rx : List Nat), ({ ClearDeviceErrors.new with rx_buf := rx }).tx_buf.head? = some 0x07) ∧
    (∀ (R : Type) [Register R] (data : List Nat), (WriteRegisters.new R data).tx_buf.head? = some 0x0D) ∧
    (∀ (R : Type) [Register R] (data : List Nat) (i v : Nat), ((WriteRegisters.new R data).writeRx i v).tx_buf.head? = some 0x0D) ∧
    (∀ (R : Type) [Register R] (n : Nat) (hn : 3 ≤ n), (ReadRegisters.new R n hn).tx_buf.head? = some 0x1D) ∧
    (∀ (R : Type) [Register R] (n : Nat) (hn : 3 ≤ n) (i v : Nat), ((ReadRegisters.new R n hn).writeRx i v).tx_buf.head? = some 0x1D) ∧
    (∀ (o : Nat) (data : List Nat), (WriteBuffer.new o data).tx_buf.head? = some 0x0E) ∧
    (∀ (o : Nat) (data : List Nat) (i v : Nat), ((WriteBuffer.new o data).writeRx i v).tx_buf.head? = some 0x0E) ∧
    (∀ (n o : Nat) (hn : 2 ≤ n), (ReadBuffer.new n o hn).tx_buf.head? = some 0x1E) ∧
    (∀ (n o : Nat) (hn : 2 ≤ n) (i v : Nat), ((ReadBuffer.new n o hn).writeRx i v).tx_buf.head? = some 0x1E) := by
  repeat' apply And.intro
  all_goals intros
  all_goals rfl

/-- Claim C9: every constructor returns a command whose receive buffer
is all zero bytes, and for the query and read commands every transmit
byte after the opcode, address or offset header is the zero
placeholder byte. -/
theorem claim_C9_rx_zero_and_placeholders :
    (∀ (ws : Bool), (SetSleep.new ws).rx_buf = List.replicate 2 0) ∧
    (∀ (sc : StdbyConfig), (SetStandby.new sc).rx_buf = List.replicate 2 0) ∧
    ((SetFs.new).rx_buf = List.replicate 1 0) ∧
    (∀ (t : Nat), (SetTx.new t).rx_buf = List.replicate 4 0) ∧
    (∀ (t : Nat), (SetRx.new t).rx_buf = List.replicate 4 0) ∧
    (∀ (sp : Bool), (StopTimerOnPreamble.new sp).rx_buf = List.replicate 2 0) ∧
    (∀ (rp slp : Nat), (SetRxDutyCycle.new rp slp).rx_buf = List.replicate 7 0) ∧
    ((SetCad.new).rx_buf = List.replicate 1 0) ∧
    ((SetTxContinuousWave.new).rx_buf = List.replicate 1 0) ∧
    ((SetTxInfinitePreamble.new).rx_buf = List.replicate 1 0) ∧
    (∀ (dc : Bool), (SetRegulatorMode.new dc).rx_buf = List.replicate 2 0) ∧
    (∀ (cp : CalibrationSetting), (Calibrate.new cp).rx_buf = List.replicate 2 0) ∧
    (∀ (f1 f2 : Nat), (CalibrateImage.new f1 f2).rx_buf = List.replicate 3 0) ∧
    (∀ (pd hm ds : Nat), (SetPaConfig.new pd hm ds).rx_buf = List.replicate 5 0) ∧
    (∀ (fm : FallbackMode), (SetRxTxFallbackMode.new fm).rx_buf = List.replicate 2 0) ∧
    (∀ (R : Type) [Register R] (r : R), (WriteRegister.new R r).rx_buf = List.replicate 4 0) ∧
    (∀ (R : Type) [Register R], (ReadRegister.new R).rx_buf = List.replicate 5 0) ∧
    (∀ (R : Type) [Register R], (ReadRegister.new R).tx_buf.drop 3 = [0, 0]) ∧
    (∀ (m1 m2 m3 m4 : Irq), (SetDioIrqParams.new m1 m2 m3 m4).rx_buf = List.replicate 9 0) ∧
    ((GetIrqStatus.new).rx_buf = List.replicate 4 0) ∧
    ((GetIrqStatus.new).tx_buf.drop 1 = [0, 0, 0]) ∧
    (∀ (cp : Irq), (ClearIrqStatus.new cp).rx_buf = List.replicate 3 0) ∧
    (∀ (en : Bool), (SetDio2AsRfSwitchCtrl.new en).rx_buf = List.replicate 2 0) ∧
    (∀ (tv : TcxoVoltage) (d : Nat), (SetDio3AsTcxoCtrl.new tv d).rx_buf = List.replicate 5 0) ∧
    (∀ (f : Nat), (SetRfFrequency.new f).rx_buf = List.replicate 5 0) ∧
    (∀ (pt : PacketType), (SetPacketType.new pt).rx_buf = List.replicate 2 0) ∧
    ((GetPacketType.new).rx_buf = List.replicate 3 0) ∧
    ((GetPacketType.new).tx_buf.drop 1 = [0, 0]) ∧
    (∀ (pw : Nat) (rt : RampTime), (SetTxParams.new pw rt).rx_buf = List.replicate 3 0) ∧
    (∀ (sf : Sf) (bw : Bw) (cr : Cr) (ld : Bool), (SetModulationParamsLora.new sf bw cr ld).rx_buf = List.replicate 5 0) ∧
    (∀ (prl : Nat) (ht : HeaderType) (pyl : Nat) (ct : Bool) (iq : InvertIq), (SetPacketParams.new prl ht pyl ct iq).rx_buf = List.replicate 7 0) ∧
    (∀ (sn : CadSymbolNum) (dp dm : Nat) (em : CadExitMode) (t : Nat), (SetCadParams.new sn dp dm em t).rx_buf = List.replicate 8 0) ∧
    (∀ (tb rb : Nat), (SetBufferBaseAddress.new tb rb).rx_buf = List.replicate 3 0) ∧
    (∀ (sn : Nat), (SetLoraSymbNumTimeout.new sn).rx_buf = List.replicate 2 0) ∧
    ((GetStatus.new).rx_buf = List.replicate 2 0) ∧
    ((GetStatus.new).tx_buf.drop 1 = [0]) ∧
    ((GetRssiInst.new).rx_buf = List.replicate 3 0) ∧
    ((GetRssiInst.new).tx_buf.drop 1 = [0, 0]) ∧
    ((GetRxBufferStatus.new).rx_buf = List.replicate 4 0) ∧
    ((GetRxBufferStatus.new).tx_buf.drop 1 = [0, 0, 0]) ∧
    ((GetPacketStatusLora.new).rx_buf = List.replicate 5 0) ∧
    ((GetPacketStatusLora.new).tx_buf.drop 1 = [0, 0, 0, 0]) ∧
    ((GetStatsLora.new).rx_buf = List.replicate 8 0) ∧
    ((GetStatsLora.new).tx_buf.drop 1 = [0, 0, 0, 0, 0, 0, 0]) ∧
    ((ResetStats.new).rx_buf = List.replicate 7 0) ∧
    ((GetDeviceErrors.new).rx_buf = List.replicate 4 0) ∧
    ((GetDeviceErrors.new).tx_buf.drop 1 = [0, 0, 0]) ∧
    ((ClearDeviceErrors.new).rx_buf = List.replicate 3 0) ∧
    (∀ (R : Type) [Register R] (data : List Nat), (WriteRegisters.new R data).rx_buf = List.replicate (data.length + 3) 0) ∧
    (∀ (R : Type) [Register R] (n : Nat) (hn : 3 ≤ n), (ReadRegisters.new R n hn).rx_buf = List.replicate n 0) ∧
    (∀ (R : Type) [Register R] (n : Nat) (hn : 3 ≤ n), (ReadRegisters.new R n hn).tx_buf.drop 3 = List.replicate (n - 3) 0) ∧
    (∀ (o : Nat) (data : List Nat), (WriteBuffer.new o data).rx_buf = List.replicate (data.length + 2) 0) ∧
    (∀ (n o : Nat) (hn : 2 ≤ n), (ReadBuffer.new n o hn).rx_buf = List.replicate n 0) ∧
    (∀ (n o : Nat) (hn : 2 ≤ n), (ReadBuffer.new n o hn).tx_buf.drop 2 = List.replicate (n - 2) 0) := by
  repeat' apply And.intro
  all_goals intros
  all_goals rfl

/-- Claim C5 amended: for every fixed-size command the descriptor
reports a transfer length equal to the receive-buffer length, also
after any write into the receive buffer; for the four const-generic
commands the reported length is the capacity N taken as u16, which
equals the receive-buffer length exactly when N < 65536 (the source
has no effective-length state, so the reported length tracks the
buffers through every mutation). -/
theorem claim_C5_amended_descriptor_length :
    (∀ n : Nat, ∀ w : WriteRegisters n, w.descriptor.transfer_length = w.rx_buf.length % 65536) ∧
    (∀ n : Nat, ∀ w : WriteRegisters n, n < 65536 → w.descriptor.transfer_length = w.rx_buf.length) ∧
    (∀ n : Nat, ∀ w : ReadRegisters n, w.descriptor.transfer_length = w.rx_buf.length % 65536) ∧
    (∀ n : Nat, ∀ w : ReadRegisters n, n < 65536 → w.descriptor.transfer_length = w.rx_buf.length) ∧
    (∀ n : Nat, ∀ w : WriteBuffer n, w.descriptor.transfer_length = w.rx_buf.length % 65536) ∧
    (∀ n : Nat, ∀ w : WriteBuffer n, n < 65536 → w.descriptor.transfer_length = w.rx_buf.length) ∧
    (∀ n : Nat, ∀ w : ReadBuffer n, w.descriptor.transfer_length = w.rx_buf.length % 65536) ∧
    (∀ n : Nat, ∀ w : ReadBuffer n, n < 65536 → w.descriptor.transfer_length = w.rx_buf.length) ∧
    (∀ (ws : Bool), (SetSleep.new ws).descriptor.transfer_length = (SetSleep.new ws).rx_buf.length) ∧
    (∀ (ws : Bool) (i v : Nat), ({ SetSleep.new ws with rx_buf := (SetSleep.new ws).rx_buf.set i v }).descriptor.transfer_length = ({ SetSleep.new ws with rx_buf := (SetSleep.new ws).rx_buf.set i v }).rx_buf.length) ∧
    (∀ (sc : StdbyConfig), (SetStandby.new sc).descriptor.transfer_length = (SetStandby.new sc).rx_buf.length) ∧
    (∀ (sc : StdbyConfig) (i v : Nat), ({ SetStandby.new sc with rx_buf := (SetStandby.new sc).rx_buf.set i v }).descriptor.transfer_length = ({ SetStandby.new sc with rx_buf := (SetStandby.new sc).rx_buf.set i v }).rx_buf.length) ∧
    ((SetFs.new).descriptor.transfer_length = (SetFs.new).rx_buf.length) ∧
    (∀ (i v : Nat), ({ SetFs.new with rx_buf := (SetFs.new).rx_buf.set i v }).descriptor.transfer_length = ({ SetFs.new with rx_buf := (SetFs.new).rx_buf.set i v }).rx_buf.length) ∧
    (∀ (t : Nat), (SetTx.new t).descriptor.transfer_length = (SetTx.new t).rx_buf.length) ∧
    (∀ (t : Nat) (i v : Nat), ({ SetTx.new t with rx_buf := (SetTx.new t).rx_buf.set i v }).descriptor.transfer_length = ({ SetTx.new t with rx_buf := (SetTx.new t).rx_buf.set i v }).rx_buf.length) ∧
    (∀ (t : Nat), (SetRx.new t).descriptor.transfer_length = (SetRx.new t).rx_buf.length) ∧
    (∀ (t : Nat) (i v : Nat), ({ SetRx.new t with rx_buf := (SetRx.new t).rx_buf.set i v }).descriptor.transfer_length = ({ SetRx.new t with rx_buf := (SetRx.new t).rx_buf.set i v }).rx_buf.length) ∧
    (∀ (sp : Bool), (StopTimerOnPreamble.new sp).descriptor.transfer_length = (StopTimerOnPreamble.new sp).rx_buf.length) ∧
    (∀ (sp : Bool) (i v : Nat), ({ StopTimerOnPreamble.new sp with rx_buf := (StopTimerOnPreamble.new sp).rx_buf.set i v }).descriptor.transfer_length = ({ StopTimerOnPreamble.new sp with rx_buf := (StopTimerOnPreamble.new sp).rx_buf.set i v }).rx_buf.length) ∧
    (∀ (rp slp : Nat), (SetRxDutyCycle.new rp slp).descriptor.transfer_length = (SetRxDutyCycle.new rp slp).rx_buf.length) ∧
    (∀ (rp slp : Nat) (i v : Nat), ({ SetRxDutyCycle.new rp slp with rx_buf := (SetRxDutyCycle.new rp slp).rx_buf.set i v }).descriptor.transfer_length = ({ SetRxDutyCycle.new rp slp with rx_buf := (SetRxDutyCycle.new rp slp).rx_buf.set i v }).rx_buf.length) ∧
    ((SetCad.new).descriptor.transfer_length = (SetCad.new).rx_buf.length) ∧
    (∀ (i v : Nat), ({ SetCad.new with rx_buf := (SetCad.new).rx_buf.set i v }).descriptor.transfer_length = ({ SetCad.new with rx_buf := (SetCad.new).rx_buf.set i v }).rx_buf.length) ∧
    ((SetTxContinuousWave.new).descriptor.transfer_length = (SetTxContinuousWave.new).rx_buf.length) ∧
    (∀ (i v : Nat), ({ SetTxContinuousWave.new with rx_buf := (SetTxContinuousWave.new).rx_buf.set i v }).descriptor.transfer_length = ({ SetTxContinuousWave.new with rx_buf := (SetTxContinuousWave.new).rx_buf.set i v }).rx_buf.length) ∧
    ((SetTxInfinitePreamble.new).descriptor.transfer_length = (SetTxInfinitePreamble.new).rx_buf.length) ∧
    (∀ (i v : Nat), ({ SetTxInfinitePreamble.new with rx_buf := (SetTxInfinitePreamble.new).rx_buf.set i v }).descriptor.transfer_length = ({ SetTxInfinitePreamble.new with rx_buf := (SetTxInfinitePreamble.new).rx_buf.set i v }).rx_buf.length) ∧
    (∀ (dc : Bool), (SetRegulatorMode.new dc).descriptor.transfer_length = (SetRegulatorMode.new dc).rx_buf.length) ∧
    (∀ (dc : Bool) (i v : Nat), ({ SetRegulatorMode.new dc with rx_buf := (SetRegulatorMode.new dc).rx_buf.set i v }).descriptor.transfer_length = ({ SetRegulatorMode.new dc with rx_buf := (SetRegulatorMode.new dc).rx_buf.set i v }).rx_buf.length) ∧
    (∀ (cp : CalibrationSetting), (Calibrate.new cp).descriptor.transfer_length = (Calibrate.new cp).rx_buf.length) ∧
    (∀ (cp : CalibrationSetting) (i v : Nat), ({ Calibrate.new cp with rx_buf := (Calibrate.new cp).rx_buf.set i v }).descriptor.transfer_length = ({ Calibrate.new cp with rx_buf := (Calibrate.new cp).rx_buf.set i v }).rx_buf.length) ∧
    (∀ (f1 f2 : Nat), (CalibrateImage.new f1 f2).descriptor.transfer_length = (CalibrateImage.new f1 f2).rx_buf.length) ∧
    (∀ (f1 f2 : Nat) (i v : Nat), ({ CalibrateImage.new f1 f2 with rx_buf := (CalibrateImage.new f1 f2).rx_buf.set i v }).descriptor.transfer_length = ({ CalibrateImage.new f1 f2 with rx_buf := (CalibrateImage.new f1 f2).rx_buf.set i v }).rx_buf.length) ∧
    (∀ (pd hm ds : Nat), (SetPaConfig.new pd hm ds).descriptor.transfer_length = (SetPaConfig.new pd hm ds).rx_buf.length) ∧
    (∀ (pd hm ds : Nat) (i v : Nat), ({ SetPaConfig.new pd hm ds with rx_buf := (SetPaConfig.new pd hm ds).rx_buf.set i v }).descriptor.transfer_length = ({ SetPaConfig.new pd hm ds with rx_buf := (SetPaConfig.new pd hm ds).rx_buf.set i v }).rx_buf.length) ∧
    (∀ (fm : FallbackMode), (SetRxTxFallbackMode.new fm).descriptor.transfer_length = (SetRxTxFallbackMode.new fm).rx_buf.length) ∧
    (∀ (fm : FallbackMode) (i v : Nat), ({ SetRxTxFallbackMode.new fm with rx_buf := (SetRxTxFallbackMode.new fm).rx_buf.set i v }).descriptor.transfer_length = ({ SetRxTxFallbackMode.new fm with rx_buf := (SetRxTxFallbackMode.new fm).rx_buf.set i v }).rx_buf.length) ∧
    (∀ (R : Type) [Register R] (r : R), (WriteRegister.new R r).descriptor.transfer_length = (WriteRegister.new R r).rx_buf.length) ∧
    (∀ (R : Type) [Register R] (r : R) (i v : Nat), ({ WriteRegister.new R r with rx_buf := (WriteRegister.new R r).rx_buf.set i v }).descriptor.transfer_length = ({ WriteRegister.new R r with rx_buf := (WriteRegister.new R r).rx_buf.set i v }).rx_buf.length) ∧
    (∀ (R : Type) [Register R], (ReadRegister.new R).descriptor.transfer_length = (ReadRegister.new R).rx_buf.length) ∧
    (∀ (R : Type) [Register R] (i v : Nat), (({ ReadRegister.new R with rx_buf := (ReadRegister.new R).rx_buf.set i v } : ReadRegister R)).descriptor.transfer_length = (({ ReadRegister.new R with rx_buf := (ReadRegister.new R).rx_buf.set i v } : ReadRegister R)).rx_buf.length) ∧
    (∀ (m1 m2 m3 m4 : Irq), (SetDioIrqParams.new m1 m2 m3 m4).descriptor.transfer_length = (SetDioIrqParams.new m1 m2 m3 m4).rx_buf.length) ∧
    (∀ (m1 m2 m3 m4 : Irq) (i v : Nat), ({ SetDioIrqParams.new m1 m2 m3 m4 with rx_buf := (SetDioIrqParams.new m1 m2 m3 m4).rx_buf.set i v }).descriptor.transfer_length = ({ SetDioIrqParams.new m1 m2 m3 m4 with rx_buf := (SetDioIrqParams.new m1 m2 m3 m4).rx_buf.set i v }).rx_buf.length) ∧
    ((GetIrqStatus.new).descriptor.transfer_length = (GetIrqStatus.new).rx_buf.length) ∧
    (∀ (i v : Nat), ({ GetIrqStatus.new with rx_buf := (GetIrqStatus.new).rx_buf.set i v }).descriptor.transfer_length = ({ GetIrqStatus.new with rx_buf := (GetIrqStatus.new).rx_buf.set i v }).rx_buf.length) ∧
    (∀ (cp : Irq), (ClearIrqStatus.new cp).descriptor.transfer_length = (ClearIrqStatus.new cp).rx_buf.length) ∧
    (∀ (cp : Irq) (i v : Nat), ({ ClearIrqStatus.new cp with rx_buf := (ClearIrqStatus.new cp).rx_buf.set i v }).descriptor.transfer_length = ({ ClearIrqStatus.new cp with rx_buf := (ClearIrqStatus.new cp).rx_buf.set i v }).rx_buf.length) ∧
    (∀ (en : Bool), (SetDio2AsRfSwitchCtrl.new en).descriptor.transfer_length = (SetDio2AsRfSwitchCtrl.new en).rx_buf.length) ∧
    (∀ (en : Bool) (i v : Nat), ({ SetDio2AsRfSwitchCtrl.new en with rx_buf := (SetDio2AsRfSwitchCtrl.new en).rx_buf.set i v }).descriptor.transfer_length = ({ SetDio2AsRfSwitchCtrl.new en with rx_buf := (SetDio2AsRfSwitchCtrl.new en).rx_buf.set i v }).rx_buf.length) ∧
    (∀ (tv : TcxoVoltage) (d : Nat), (SetDio3AsTcxoCtrl.new tv d).descriptor.transfer_length = (SetDio3AsTcxoCtrl.new tv d).rx_buf.length) ∧
    (∀ (tv : TcxoVoltage) (d : Nat) (i v : Nat), ({ SetDio3AsTcxoCtrl.new tv d with rx_buf := (SetDio3AsTcxoCtrl.new tv d).rx_buf.set i v }).descriptor.transfer_length = ({ SetDio3AsTcxoCtrl.new tv d with rx_buf := (SetDio3AsTcxoCtrl.new tv d).rx_buf.set i v }).rx_buf.length) ∧
    (∀ (f : Nat), (SetRfFrequency.new f).descriptor.transfer_length = (SetRfFrequency.new f).rx_buf.length) ∧
    (∀ (f : Nat) (i v : Nat), ({ SetRfFrequency.new f with rx_buf := (SetRfFrequency.new f).rx_buf.set i v }).descriptor.transfer_length = ({ SetRfFrequency.new f with rx_buf := (SetRfFrequency.new f).rx_buf.set i v }).rx_buf.length) ∧
    (∀ (pt : PacketType), (SetPacketType.new pt).descriptor.transfer_length = (SetPacketType.new pt).rx_buf.length) ∧
    (∀ (pt : PacketType) (i v : Nat), ({ SetPacketType.new pt with rx_buf := (SetPacketType.new pt).rx_buf.set i v }).descriptor.transfer_length = ({ SetPacketType.new pt with rx_buf := (SetPacketType.new pt).rx_buf.set i v }).rx_buf.length) ∧
    ((GetPacketType.new).descriptor.transfer_length = (GetPacketType.new).rx_buf.length) ∧
    (∀ (i v : Nat), ({ GetPacketType.new with rx_buf := (GetPacketType.new).rx_buf.set i v }).descriptor.transfer_length = ({ GetPacketType.new with rx_buf := (GetPacketType.new).rx_buf.set i v }).rx_buf.length) ∧
    (∀ (pw : Nat) (rt : RampTime), (SetTxParams.new pw rt).descriptor.transfer_length = (SetTxParams.new pw rt).rx_buf.length) ∧
    (∀ (pw : Nat) (rt : RampTime) (i v : Nat), ({ SetTxParams.new pw rt with rx_buf := (SetTxParams.new pw rt).rx_buf.set i v }).descriptor.transfer_length = ({ SetTxParams.new pw rt with rx_buf := (SetTxParams.new pw rt).rx_buf.set i v }).rx_buf.length) ∧
    (∀ (sf : Sf) (bw : Bw) (cr : Cr) (ld : Bool), (SetModulationParamsLora.new sf bw cr ld).descriptor.transfer_length = (SetModulationParamsLora.new sf bw cr ld).rx_buf.length) ∧
    (∀ (sf : Sf) (bw : Bw) (cr : Cr) (ld : Bool) (i v : Nat), ({ SetModulationParamsLora.new sf bw cr ld with rx_buf := (SetModulationParamsLora.new sf bw cr ld).rx_buf.set i v }).descriptor.transfer_length = ({ SetModulationParamsLora.new sf bw cr ld with rx_buf := (SetModulationParamsLora.new sf bw cr ld).rx_buf.set i v }).rx_buf.length) ∧
    (∀ (prl : Nat) (ht : HeaderType) (pyl : Nat) (ct : Bool) (iq : InvertIq), (SetPacketParams.new prl ht pyl ct iq).descriptor.transfer_length = (SetPacketParams.new prl ht pyl ct iq).rx_buf.length) ∧
    (∀ (prl : Nat) (ht : HeaderType) (pyl : Nat) (ct : Bool) (iq : InvertIq) (i v : Nat), ({ SetPacketParams.new prl ht pyl ct iq with rx_buf := (SetPacketParams.new prl ht pyl ct iq).rx_buf.set i v }).descriptor.transfer_length = ({ SetPacketParams.new prl ht pyl ct iq with rx_buf := (SetPacketParams.new prl ht pyl ct iq).rx_buf.set i v }).rx_buf.length) ∧
    (∀ (sn : CadSymbolNum) (dp dm : Nat) (em : CadExitMode) (t : Nat), (SetCadParams.new sn dp dm em t).descriptor.transfer_length = (SetCadParams.new sn dp dm em t).rx_buf.length) ∧
    (∀ (sn : CadSymbolNum) (dp dm : Nat) (em : CadExitMode) (t : Nat) (i v : Nat), ({ SetCadParams.new sn dp dm em t with rx_buf := (SetCadParams.new sn dp dm em t).rx_buf.set i v }).descriptor.transfer_length = ({ SetCadParams.new sn dp dm em t with rx_buf := (SetCadParams.new sn dp dm em t).rx_buf.set i v }).rx_buf.length) ∧
    (∀ (tb rb : Nat), (SetBufferBaseAddress.new tb rb).descriptor.transfer_length = (SetBufferBaseAddress.new tb rb).rx_buf.length) ∧
    (∀ (tb rb : Nat) (i v : Nat), ({ SetBufferBaseAddress.new tb rb with rx_buf := (SetBufferBaseAddress.new tb rb).rx_buf.set i v }).descriptor.transfer_length = ({ SetBufferBaseAddress.new tb rb with rx_buf := (SetBufferBaseAddress.new tb rb).rx_buf.set i v }).rx_buf.length) ∧
    (∀ (sn : Nat), (SetLoraSymbNumTimeout.new sn).descriptor.transfer_length = (SetLoraSymbNumTimeout.new sn).rx_buf.length) ∧
    (∀ (sn : Nat) (i v : Nat), ({ SetLoraSymbNumTimeout.new sn with rx_buf := (SetLoraSymbNumTimeout.new sn).rx_buf.set i v }).descriptor.transfer_length = ({ SetLoraSymbNumTimeout.new sn with rx_buf := (SetLoraSymbNumTimeout.new sn).rx_buf.set i v }).rx_buf.length) ∧
    ((GetStatus.new).descriptor.transfer_length = (GetStatus.new).rx_buf.length) ∧
    (∀ (i v : Nat), ({ GetStatus.new with rx_buf := (GetStatus.new).rx_buf.set i v }).descriptor.transfer_length = ({ GetStatus.new with rx_buf := (GetStatus.new).rx_buf.set i v }).rx_buf.length) ∧
    ((GetRssiInst.new).descriptor.transfer_length = (GetRssiInst.new).rx_buf.length) ∧
    (∀ (i v : Nat), ({ GetRssiInst.new with rx_buf := (GetRssiInst.new).rx_buf.set i v }).descriptor.transfer_length = ({ GetRssiInst.new with rx_buf := (GetRssiInst.new).rx_buf.set i v }).rx_buf.length) ∧
    ((GetRxBufferStatus.new).descriptor.transfer_length = (GetRxBufferStatus.new).rx_buf.length) ∧
    (∀ (i v : Nat), ({ GetRxBufferStatus.new with rx_buf := (GetRxBufferStatus.new).rx_buf.set i v }).descriptor.transfer_length = ({ GetRxBufferStatus.new with rx_buf := (GetRxBufferStatus.new).rx_buf.set i v }).rx_buf.length) ∧
    ((GetPacketStatusLora.new).descriptor.transfer_length = (GetPacketStatusLora.new).rx_buf.length) ∧
    (∀ (i v : Nat), ({ GetPacketStatusLora.new with rx_buf := (GetPacketStatusLora.new).rx_buf.set i v }).descriptor.transfer_length = ({ GetPacketStatusLora.new with rx_buf := (GetPacketStatusLora.new).rx_buf.set i v }).rx_buf.length) ∧
    ((GetStatsLora.new).descriptor.transfer_length = (GetStatsLora.new).rx_buf.length) ∧
    (∀ (i v : Nat), ({ GetStatsLora.new with rx_buf := (GetStatsLora.new).rx_buf.set i v }).descriptor.transfer_length = ({ GetStatsLora.new with rx_buf := (GetStatsLora.new).rx_buf.set i v }).rx_buf.length) ∧
    ((ResetStats.new).descriptor.transfer_length = (ResetStats.new).rx_buf.length) ∧
    (∀ (i v : Nat), ({ ResetStats.new with rx_buf := (ResetStats.new).rx_buf.set i v }).descriptor.transfer_length = ({ ResetStats.new with rx_buf := (ResetStats.new).rx_buf.set i v }).rx_buf.length) ∧
    ((GetDeviceErrors.new).descriptor.transfer_length = (GetDeviceErrors.new).rx_buf.length) ∧
    (∀ (i v : Nat), ({ GetDeviceErrors.new with rx_buf := (GetDeviceErrors.new).rx_buf.set i v }).descriptor.transfer_length = ({ GetDeviceErrors.new with rx_buf := (GetDeviceErrors.new).rx_buf.set i v }).rx_buf.length) ∧
    ((ClearDeviceErrors.new).descriptor.transfer_length = (ClearDeviceErrors.new).rx_buf.length) ∧
    (∀ (i v : Nat), ({ ClearDeviceErrors.new with rx_buf := (ClearDeviceErrors.new).rx_buf.set i v }).descriptor.transfer_length = ({ ClearDeviceErrors.new with rx_buf := (ClearDeviceErrors.new).rx_buf.set i v }).rx_buf.length) := by
  refine ⟨fun n w => WriteRegisters.writeRegisters_transfer_length_mod w,
    fun n w h => WriteRegisters.writeRegisters_transfer_length_of_lt w h,
    fun n w => ReadRegisters.readRegisters_transfer_length_mod w,
    fun n w h => ReadRegisters.readRegisters_transfer_length_of_lt w h,
    fun n w => WriteBuffer.writeBuffer_transfer_length_mod w,
    fun n w h => WriteBuffer.writeBuffer_transfer_length_of_lt w h,
    fun n w => ReadBuffer.readBuffer_transfer_length_mod w,
    fun n w h => ReadBuffer.readBuffer_transfer_length_of_lt w h, ?_⟩
  repeat' apply And.intro
  all_goals intros
  all_goals simp [List.length_set, List.length_replicate,
    SetSleep.descriptor, SetStandby.descriptor, SetFs.descriptor, SetTx.descriptor, SetRx.descriptor, StopTimerOnPreamble.descriptor, SetRxDutyCycle.descriptor, SetCad.descriptor, SetTxContinuousWave.descriptor, SetTxInfinitePreamble.descriptor, SetRegulatorMode.descriptor, Calibrate.descriptor, CalibrateImage.descriptor, SetPaConfig.descriptor, SetRxTxFallbackMode.descriptor, WriteRegister.descriptor, ReadRegister.descriptor, SetDioIrqParams.descriptor, GetIrqStatus.descriptor, ClearIrqStatus.descriptor, SetDio2AsRfSwitchCtrl.descriptor, SetDio3AsTcxoCtrl.descriptor, SetRfFrequency.descriptor, SetPacketType.descriptor, GetPacketType.descriptor, SetTxParams.descriptor, SetModulationParamsLora.descriptor, SetPacketParams.descriptor, SetCadParams.descriptor, SetBufferBaseAddress.descriptor, SetLoraSymbNumTimeout.descriptor, GetStatus.descriptor, GetRssiInst.descriptor, GetRxBufferStatus.descriptor, GetPacketStatusLora.descriptor, GetStatsLora.descriptor, ResetStats.descriptor, GetDeviceErrors.descriptor, ClearDeviceErrors.descriptor, SetSleep.new, SetStandby.new, SetFs.new, SetTx.new, SetRx.new, StopTimerOnPreamble.new, SetRxDutyCycle.new, SetCad.new, SetTxContinuousWave.new, SetTxInfinitePreamble.new, SetRegulatorMode.new, Calibrate.new, CalibrateImage.new, SetPaConfig.new, SetRxTxFallbackMode.new, WriteRegister.new, ReadRegister.new, SetDioIrqParams.new, GetIrqStatus.new, ClearIrqStatus.new, SetDio2AsRfSwitchCtrl.new, SetDio3AsTcxoCtrl.new, SetRfFrequency.new, SetPacketType.new, GetPacketType.new, SetTxParams.new, SetModulationParamsLora.new, SetPacketParams.new, SetCadParams.new, SetBufferBaseAddress.new, SetLoraSymbNumTimeout.new, GetStatus.new, GetRssiInst.new, GetRxBufferStatus.new, GetPacketStatusLora.new, GetStatsLora.new, ResetStats.new, GetDeviceErrors.new, ClearDeviceErrors.new]

end SX126x
